import Mathlib

/-!
# Shallow embedding of the SCP/RCP attachment-resolution scripts

This file embeds the attachment-resolution logic of the repository
(`resolve_control_policy_data.py`, `resolve_scp_data.py`, and the
capture-side walker of `generate_scp_ou_structure_and_imports.py`) as
executable Lean definitions, and proves properties of them.

Modelling choices:

* Python strings are Lean `String`s; `str.replace` is embedded as a
  left-to-right non-overlapping replace on the character list.
* The filesystem mirror is an association list from directory path to its
  listing (`os.listdir` order); `glob.glob(path/"*.ext")` is embedded as a
  filter of the listing by suffix, skipping names that start with a dot
  (glob does not match hidden files).
* The boto3 Organizations client is a structure of response functions.
  A `list_children` response carries a child-id list and an optional
  `NextToken`.  Both resolve scripts execute `children.append(...)` on the
  response dict whenever a `NextToken` is present; a Python dict has no
  `append` attribute and the attribute lookup happens before the argument
  is evaluated, so the loop raises `AttributeError` without any further
  API call.  This is embedded as the `attributeError` outcome.
* Python's insertion-ordered dict is an association list; assignment to an
  existing key updates the value in place (preserving its position), and
  assignment to a fresh key appends it.
* Exceptions are an explicit error type; `try/except FileNotFoundError`
  is a `match` on the `fileNotFound` constructor.
* Recursion over the (externally supplied, hence possibly infinite)
  organization tree is bounded by an explicit `fuel` parameter; the
  `outOfFuel` outcome is an artifact of the embedding, not of the code.
* Logging, Terraform string templating (`get_terraform_resource_string`)
  and file output are elided; the manifest is modelled as the ordered list
  of entries that `main` would feed to the templating function.
-/

/-- Python `str.replace` on character lists: scans left to right, replaces
non-overlapping occurrences of `pat` by `rep`.  `fuel` is instantiated with
the length of the subject, which suffices because every step consumes at
least one character. -/
def replCharsAux (pat rep : List Char) : Nat → List Char → List Char
  | 0, s => s
  | Nat.succ f, s =>
    match s with
    | [] => []
    | c :: rest =>
      if !pat.isEmpty && pat.isPrefixOf (c :: rest) then
        rep ++ replCharsAux pat rep f ((c :: rest).drop pat.length)
      else
        c :: replCharsAux pat rep f rest

/-- Python `s.replace(pat, rep)` (replaces every occurrence). -/
def pyReplace (s pat rep : String) : String :=
  ⟨replCharsAux pat.data rep.data s.data.length s.data⟩

/-- Does `s` end with `suf`?  (Used to embed the `$`-anchored regex searches
and the suffix part of a `*`-glob pattern.) -/
def strEndsWith (s suf : String) : Bool :=
  Nat.ble suf.data.length s.data.length &&
    (s.data.drop (s.data.length - suf.data.length) == suf.data)

/-- Does `s` start with `pre`? -/
def strStartsWith (s pre : String) : Bool :=
  pre.data.isPrefixOf s.data

/-- Is `sub` a contiguous substring of `s`?  (Used to express "the message
names the path".) -/
def containsSubAux (pat : List Char) : List Char → Bool
  | [] => pat.isEmpty
  | c :: rest => pat.isPrefixOf (c :: rest) || containsSubAux pat rest

/-- String-level substring test. -/
def containsSub (sub s : String) : Bool :=
  containsSubAux sub.data s.data

/-- Embeds `re.search(r" ", s)`: does `s` contain a space? -/
def hasSpace (s : String) : Bool :=
  s.data.any (fun c => c == ' ')

/-- Embeds `re.match(r"\d{12}", s)`: the regex is anchored at the start but
not the end, so it matches any string whose first 12 characters are digits. -/
def matches12 (s : String) : Bool :=
  Nat.ble 12 s.data.length && (s.data.take 12).all (fun c => c.isDigit)

/-- A 12-digit AWS account id: exactly 12 characters, all digits. -/
def isAccountId (s : String) : Bool :=
  (s.data.length == 12) && s.data.all (fun c => c.isDigit)

/-- Lexicographic string comparison on character codes (Python `<=` on
strings), used to express "sorted by policy name, ascending". -/
def strLeB : List Char → List Char → Bool
  | [], _ => true
  | _ :: _, [] => false
  | a :: as, b :: bs => if a = b then strLeB as bs else Nat.ble a.toNat b.toNat

/-- String-level `<=`. -/
def pyStrLe (a b : String) : Bool :=
  strLeB a.data b.data

/-- Is the list of names in ascending order? -/
def chainAsc : List String → Bool
  | [] => true
  | [_] => true
  | a :: b :: rest => pyStrLe a b && chainAsc (b :: rest)

/-- One entry of a directory listing: a name, and whether it is a regular
file (`os.path.isfile`). -/
structure DirEntry where
  name : String
  isFile : Bool
deriving DecidableEq, Repr

/-- The filesystem mirror: an association list from directory path to its
listing.  A path absent from the list is a missing directory
(`os.listdir` raises `FileNotFoundError`). -/
abbrev FS := List (String × List DirEntry)

/-- Embeds `os.listdir` lookup (without the raising behaviour). -/
def fsList (fs : FS) (p : String) : Option (List DirEntry) :=
  match fs with
  | [] => none
  | (q, l) :: rest => if q = p then some l else fsList rest p

/-- One `list_children` response: the `Children` ids and the optional
`NextToken`. -/
structure Page where
  children : List String
  nextToken : Option String
deriving DecidableEq, Repr

/-- The boto3 Organizations client, as a structure of response functions.
`list_children` takes parent id, child type and the pagination token. -/
structure OrgClient where
  list_children : String → String → Option String → Page
  describe_ou_name : String → String
  describe_account_name : String → String
  list_roots : List String
  list_policies_for_target : String → String → List String
  list_organizational_units_for_parent : String → List String
  list_accounts_for_parent : String → List String

/-- A client whose every listing is empty; concrete scenarios override the
relevant fields. -/
def baseClient : OrgClient where
  list_children := fun _ _ _ => ⟨[], none⟩
  describe_ou_name := fun _ => ""
  describe_account_name := fun _ => ""
  list_roots := []
  list_policies_for_target := fun _ _ => []
  list_organizational_units_for_parent := fun _ => []
  list_accounts_for_parent := fun _ => []

/-- One value of the scripts' `data_dict`: the source-file path and the
ordered attachment-target list. -/
structure Entry where
  path : String
  targets : List String
deriving DecidableEq, Repr

/-- The scripts' `data_dict`: a Python (insertion-ordered) dict from policy
name to `Entry`. -/
abbrev DataDict := List (String × Entry)

/-- Python `d.get(k)` (entries are non-empty dicts, hence truthy, so the
scripts' `if data_dict.get(base_name, "")` test is `isSome` of this). -/
def dictGet (d : DataDict) (k : String) : Option Entry :=
  match d with
  | [] => none
  | (k', v) :: rest => if k' = k then some v else dictGet rest k

/-- Python `d[k] = v`: updates an existing key in place (keeping its
position in the iteration order) or appends a fresh key at the end. -/
def dictSet (d : DataDict) (k : String) (v : Entry) : DataDict :=
  match d with
  | [] => [(k, v)]
  | (k', v') :: rest => if k' = k then (k', v) :: rest else (k', v') :: dictSet rest k v

/-- The keys of a `data_dict`, in iteration order. -/
def dictKeys (d : DataDict) : List String :=
  d.map Prod.fst

/-- The error outcomes of the scripts.  `tooManyAttachments`, `ouTooMany`,
`spaceInName` and `unsupportedPolicy` are the generic `Exception`s raised;
`fileNotFound` is `FileNotFoundError` (the only one that is caught);
`attributeError` is the `AttributeError` raised by `children.append(...)`
on a dict; `indexError` is `list_roots()["Roots"][0]` on an empty list;
`outOfFuel` is an artifact of the bounded embedding. -/
inductive PErr where
  | unsupportedPolicy (policy_type : String)
  | tooManyAttachments (path : String)
  | ouTooMany (path : String)
  | spaceInName (nm path : String)
  | fileNotFound (msg : String)
  | attributeError
  | indexError
  | outOfFuel
deriving DecidableEq, Repr

/-- The constructor of a `PErr`, with payloads erased (used to compare the
failure behaviour of the two resolve scripts, whose error texts differ). -/
inductive PErrKind where
  | unsupportedPolicy
  | tooManyAttachments
  | ouTooMany
  | spaceInName
  | fileNotFound
  | attributeError
  | indexError
  | outOfFuel
deriving DecidableEq, Repr

/-- Erase a `PErr` to its kind. -/
def kindOf : PErr → PErrKind
  | .unsupportedPolicy _ => .unsupportedPolicy
  | .tooManyAttachments _ => .tooManyAttachments
  | .ouTooMany _ => .ouTooMany
  | .spaceInName _ _ => .spaceInName
  | .fileNotFound _ => .fileNotFound
  | .attributeError => .attributeError
  | .indexError => .indexError
  | .outOfFuel => .outOfFuel

/-- The short-name dispatch both scripts perform on the policy type. -/
def shortNameOf (policy_type : String) : Option String :=
  if policy_type = "RESOURCE_CONTROL_POLICY" then some "rcp"
  else if policy_type = "SERVICE_CONTROL_POLICY" then some "scp"
  else none

/-- Embeds `re.search(rf"\.{short_name}(\.shared)?$", nm)`. -/
def attachRegexMatch (short nm : String) : Bool :=
  strEndsWith nm ("." ++ short) || strEndsWith nm ("." ++ short ++ ".shared")

/-- Embeds `re.search(r"(ROOT|ACCOUNT)$", p)`: this is how the scripts
decide that a folder is the root folder or an account folder (and hence
exempt from the tighter OU bound). -/
def endsRootOrAccount (p : String) : Bool :=
  strEndsWith p "ROOT" || strEndsWith p "ACCOUNT"

/-- Embeds `glob.glob(os.path.join(p, "*" ++ suffix))`, returning base
names in listing order.  glob matches directories as well as files, but
does not match names beginning with a dot. -/
def globNames (listing : List DirEntry) (suffix : String) : List String :=
  (listing.filter (fun e => strEndsWith e.name suffix && !strStartsWith e.name ".")).map
    (fun e => e.name)

/-- The number of entries of a listing that `verify_attachment_counts`
counts: regular files matching `\.short(\.shared)?$`.  Externally-managed
placeholders (`.placeholder`, `.guardrail` files) do not match. -/
def countMatching (short : String) (items : List DirEntry) : Nat :=
  (items.filter (fun e => e.isFile && attachRegexMatch short e.name)).length

/-- `MAX_CUSTOM_POLICY_ATTACHMENTS` of both resolve scripts. -/
def MAX_CUSTOM_POLICY_ATTACHMENTS : Nat := 4

/-- The trace of `list_children`-style calls the walkers make:
(parent id, child type / operation name) pairs, in call order. -/
abbrev Trace := List (String × String)

/-- The per-item loop of `verify_attachment_counts` (identical in
`resolve_control_policy_data.py:54-68` and `resolve_scp_data.py:54-68`):
walks the listing, counts matching regular files, and re-checks both
bounds after every item. -/
def verifyLoop (current_path short : String) : List DirEntry → Nat → Except PErr Unit
  | [], _ => .ok ()
  | e :: rest, count =>
    let count' := if e.isFile && attachRegexMatch short e.name then count + 1 else count
    if count' > MAX_CUSTOM_POLICY_ATTACHMENTS then
      .error (.tooManyAttachments current_path)
    else if !endsRootOrAccount current_path && count' > MAX_CUSTOM_POLICY_ATTACHMENTS - 2 then
      .error (.ouTooMany current_path)
    else
      verifyLoop current_path short rest count'

/-- Embeds `verify_attachment_counts` (identical in both resolve scripts,
lines 40-71): dispatches the short name, lists the directory (raising
`FileNotFoundError` if it is missing) and runs the counting loop. -/
def verify_attachment_counts (fs : FS) (current_path policy_type : String) : Except PErr Unit :=
  match shortNameOf policy_type with
  | none => .error (.unsupportedPolicy policy_type)
  | some short =>
    match fsList fs current_path with
    | none => .error (.fileNotFound ("[Errno 2] No such file or directory: " ++ current_path))
    | some items => verifyLoop current_path short items 0

namespace resolve_control_policy_data

/-- `CONTROL_POLICIES_FOLDER` of `resolve_control_policy_data.py`. -/
def CONTROL_POLICIES_FOLDER : String := "control_policies_ou_structure"

/-- `ACCOUNT_SUFFIX` of `resolve_control_policy_data.py`. -/
def ACCOUNT_SUFFIX : String := "_ACCOUNT"

/-- The constant message of the `FileNotFoundError` re-raised around the
recursive call (`resolve_control_policy_data.py:187-190`). -/
def MISSING_MSG : String :=
  "The AWS OU structure contains a resource without a matching file/folder in this repo. To resolve this, run the update_scp_ou_structure workflow or generate_policies_ou_structure_and_imports.py."

/-- The directly-attached-policy loop (`resolve_control_policy_data.py:115-126`):
for each `*.short` glob match, strips the extension, rejects names
containing a space, and assigns the entry (overwriting any existing entry
for that name). -/
def processDirect (short current_path current_target_id : String) :
    List String → DataDict → Except PErr DataDict
  | [], d => .ok d
  | nm :: rest, d =>
    let base_name := pyReplace nm ("." ++ short) ""
    if hasSpace base_name then
      .error (.spaceInName base_name current_path)
    else
      processDirect short current_path current_target_id rest
        (dictSet d base_name
          ⟨current_path ++ "/" ++ base_name ++ "." ++ short, [current_target_id]⟩)

/-- The body of the shared-marker loop
(`resolve_control_policy_data.py:128-139`) for one `*.short.shared` glob
match: strips the suffix; if the registry already holds the name, appends
the current target id to its target list, otherwise creates the entry
pointing at the SHARED folder. -/
def processSharedOne (short current_target_id : String) (d : DataDict) (nm : String) :
    DataDict :=
  let base_name := pyReplace nm ("." ++ short ++ ".shared") ""
  match dictGet d base_name with
  | some e => dictSet d base_name ⟨e.path, e.targets ++ [current_target_id]⟩
  | none =>
      dictSet d base_name
        ⟨CONTROL_POLICIES_FOLDER ++ "/SHARED/" ++ base_name ++ "." ++ short,
         [current_target_id]⟩

/-- The shared-marker loop over all `*.short.shared` glob matches. -/
def processShared (short current_target_id : String) : List String → DataDict → DataDict
  | [], d => d
  | nm :: rest, d =>
      processShared short current_target_id rest (processSharedOne short current_target_id d nm)

/-- The per-child loop (`resolve_control_policy_data.py:164-190`): derives
the child folder name (`describe_organizational_unit` for OUs,
`describe_account` plus `ACCOUNT_SUFFIX` for accounts), makes the
recursive call, and re-raises any `FileNotFoundError` from it with the
constant `MISSING_MSG`. -/
def walkKids (client : OrgClient) (child_type current_path : String)
    (recurse : String → String → DataDict → Except PErr DataDict × Trace) :
    List String → DataDict → Except PErr DataDict × Trace
  | [], d => (.ok d, [])
  | cid :: rest, d =>
    let child_path_name :=
      if child_type = "ORGANIZATIONAL_UNIT" then client.describe_ou_name cid
      else client.describe_account_name cid ++ ACCOUNT_SUFFIX
    let r := recurse cid (current_path ++ "/" ++ child_path_name) d
    match r.1 with
    | .error (.fileNotFound _) => (.error (.fileNotFound MISSING_MSG), r.2)
    | .error e => (.error e, r.2)
    | .ok d' =>
      let rr := walkKids client child_type current_path recurse rest d'
      (rr.1, r.2 ++ rr.2)

/-- The child-type loop (`resolve_control_policy_data.py:141-190`): for
each of `ORGANIZATIONAL_UNIT` and `ACCOUNT`, skips listing when the
current id matches `\d{12}` (accounts are leaves), calls `list_children`
(recorded in the trace), raises `AttributeError` if the response carries a
`NextToken` (`children.append(...)` on a dict), and otherwise walks the
children. -/
def walkChildTypes (client : OrgClient) (current_target_id current_path : String)
    (recurse : String → String → DataDict → Except PErr DataDict × Trace) :
    List String → DataDict → Except PErr DataDict × Trace
  | [], d => (.ok d, [])
  | child_type :: rest, d =>
    if matches12 current_target_id then
      walkChildTypes client current_target_id current_path recurse rest d
    else
      let children := client.list_children current_target_id child_type none
      if children.nextToken.isSome then
        (.error .attributeError, [(current_target_id, child_type)])
      else
        let r := walkKids client child_type current_path recurse children.children d
        match r.1 with
        | .error e => (.error e, (current_target_id, child_type) :: r.2)
        | .ok d' =>
          let rr := walkChildTypes client current_target_id current_path recurse rest d'
          (rr.1, (current_target_id, child_type) :: (r.2 ++ rr.2))

/-- Embeds `get_policy_attachments` of `resolve_control_policy_data.py`
(lines 74-192).  Returns the resulting `data_dict` (or the error) together
with the trace of `list_children` calls made. -/
def get_policy_attachments (client : OrgClient) (fs : FS) (policy_type : String) :
    Nat → String → String → DataDict → Except PErr DataDict × Trace
  | 0, _, _, _ => (.error .outOfFuel, [])
  | Nat.succ f, current_target_id, current_path, data_dict =>
    match shortNameOf policy_type with
    | none => (.error (.unsupportedPolicy policy_type), [])
    | some short =>
      match verify_attachment_counts fs current_path policy_type with
      | .error e => (.error e, [])
      | .ok _ =>
        let listing := (fsList fs current_path).getD []
        match processDirect short current_path current_target_id
            (globNames listing ("." ++ short)) data_dict with
        | .error e => (.error e, [])
        | .ok d1 =>
          let d2 := processShared short current_target_id
            (globNames listing ("." ++ short ++ ".shared")) d1
          walkChildTypes client current_target_id current_path
            (fun cid cpath d => get_policy_attachments client fs policy_type f cid cpath d)
            ["ORGANIZATIONAL_UNIT", "ACCOUNT"] d2

/-- One manifest record: the arguments `main` passes to the (elided)
Terraform templating function for one `data_dict` entry. -/
structure ManifestEntry where
  cp_name : String
  cp_policy_path : String
  cp_target_list : List String
  cp_type : String
deriving DecidableEq, Repr

/-- The manifest records produced from one `data_dict`, in dict iteration
order (`for cp_entry in data_dict`). -/
def entriesOf (d : DataDict) (t : String) : List ManifestEntry :=
  d.map (fun kv => ⟨kv.1, kv.2.path, kv.2.targets, t⟩)

/-- Embeds `main` of `resolve_control_policy_data.py` (lines 229-264):
takes the first root, walks the tree once per policy type (with a fresh
`data_dict` each time), and appends the manifest records of each pass in
dict iteration order. -/
def main_manifest (client : OrgClient) (fs : FS) (fuel : Nat) :
    Except PErr (List ManifestEntry) :=
  match client.list_roots with
  | [] => .error .indexError
  | root_id :: _ =>
    let root_path := CONTROL_POLICIES_FOLDER ++ "/" ++ "ROOT"
    match (get_policy_attachments client fs "SERVICE_CONTROL_POLICY"
        fuel root_id root_path []).1 with
    | .error e => .error e
    | .ok d1 =>
      match (get_policy_attachments client fs "RESOURCE_CONTROL_POLICY"
          fuel root_id root_path []).1 with
      | .error e => .error e
      | .ok d2 =>
        .ok (entriesOf d1 "SERVICE_CONTROL_POLICY" ++ entriesOf d2 "RESOURCE_CONTROL_POLICY")

end resolve_control_policy_data

namespace resolve_scp_data

/-- `CONTROL_POLICIES_FOLDER` of `resolve_scp_data.py`. -/
def CONTROL_POLICIES_FOLDER : String := "control_policies_ou_structure"

/-- `ACCOUNT_SUFFIX` of `resolve_scp_data.py`. -/
def ACCOUNT_SUFFIX : String := "_ACCOUNT"

/-- The constant message of the `FileNotFoundError` re-raised around the
recursive call (`resolve_scp_data.py:156-159`). -/
def MISSING_MSG : String :=
  "The AWS OU structure contains a resource without a matching file/folder in the SCP repo. To resolve this, run the update_scp_ou_structure workflow."

/-- The directly-attached-policy loop (`resolve_scp_data.py:97-104`): like
the control-policy script's loop but with no check for spaces in the
name. -/
def processDirect (short current_path current_target_id : String) :
    List String → DataDict → DataDict
  | [], d => d
  | nm :: rest, d =>
    let base_name := pyReplace nm ("." ++ short) ""
    processDirect short current_path current_target_id rest
      (dictSet d base_name
        ⟨current_path ++ "/" ++ base_name ++ "." ++ short, [current_target_id]⟩)

/-- The body of the shared-marker loop (`resolve_scp_data.py:106-117`) for
one match.  Note line 110 calls `.replace(".{short_name}.shared", "")` on
a string that is NOT an f-string, so the literal pattern
`.{short_name}.shared` is (almost never) found and the base name keeps the
full file name. -/
def processSharedOne (short current_target_id : String) (d : DataDict) (nm : String) :
    DataDict :=
  let base_name := pyReplace nm ".\x7bshort_name\x7d.shared" ""
  match dictGet d base_name with
  | some e => dictSet d base_name ⟨e.path, e.targets ++ [current_target_id]⟩
  | none =>
      dictSet d base_name
        ⟨CONTROL_POLICIES_FOLDER ++ "/SHARED/" ++ base_name ++ "." ++ short,
         [current_target_id]⟩

/-- The shared-marker loop over all `*.short.shared` glob matches. -/
def processShared (short current_target_id : String) : List String → DataDict → DataDict
  | [], d => d
  | nm :: rest, d =>
      processShared short current_target_id rest (processSharedOne short current_target_id d nm)

/-- The per-child loop (`resolve_scp_data.py:134-159`), identical to the
control-policy script's except for the message of the re-raised
`FileNotFoundError`. -/
def walkKids (client : OrgClient) (child_type current_path : String)
    (recurse : String → String → DataDict → Except PErr DataDict × Trace) :
    List String → DataDict → Except PErr DataDict × Trace
  | [], d => (.ok d, [])
  | cid :: rest, d =>
    let child_path_name :=
      if child_type = "ORGANIZATIONAL_UNIT" then client.describe_ou_name cid
      else client.describe_account_name cid ++ ACCOUNT_SUFFIX
    let r := recurse cid (current_path ++ "/" ++ child_path_name) d
    match r.1 with
    | .error (.fileNotFound _) => (.error (.fileNotFound MISSING_MSG), r.2)
    | .error e => (.error e, r.2)
    | .ok d' =>
      let rr := walkKids client child_type current_path recurse rest d'
      (rr.1, r.2 ++ rr.2)

/-- The child-type loop (`resolve_scp_data.py:119-159`).  The pagination
loop at lines 126-133 is `children.append(org_client.list_children(...))`
on the response dict, which raises `AttributeError` (before evaluating the
argument) whenever a `NextToken` is present - the same observable
behaviour as the control-policy script. -/
def walkChildTypes (client : OrgClient) (current_target_id current_path : String)
    (recurse : String → String → DataDict → Except PErr DataDict × Trace) :
    List String → DataDict → Except PErr DataDict × Trace
  | [], d => (.ok d, [])
  | child_type :: rest, d =>
    if matches12 current_target_id then
      walkChildTypes client current_target_id current_path recurse rest d
    else
      let children := client.list_children current_target_id child_type none
      if children.nextToken.isSome then
        (.error .attributeError, [(current_target_id, child_type)])
      else
        let r := walkKids client child_type current_path recurse children.children d
        match r.1 with
        | .error e => (.error e, (current_target_id, child_type) :: r.2)
        | .ok d' =>
          let rr := walkChildTypes client current_target_id current_path recurse rest d'
          (rr.1, (current_target_id, child_type) :: (r.2 ++ rr.2))

/-- Embeds `get_policy_attachments` of `resolve_scp_data.py` (lines
74-161). -/
def get_policy_attachments (client : OrgClient) (fs : FS) (policy_type : String) :
    Nat → String → String → DataDict → Except PErr DataDict × Trace
  | 0, _, _, _ => (.error .outOfFuel, [])
  | Nat.succ f, current_target_id, current_path, data_dict =>
    match shortNameOf policy_type with
    | none => (.error (.unsupportedPolicy policy_type), [])
    | some short =>
      match verify_attachment_counts fs current_path policy_type with
      | .error e => (.error e, [])
      | .ok _ =>
        let listing := (fsList fs current_path).getD []
        let d1 := processDirect short current_path current_target_id
          (globNames listing ("." ++ short)) data_dict
        let d2 := processShared short current_target_id
          (globNames listing ("." ++ short ++ ".shared")) d1
        walkChildTypes client current_target_id current_path
          (fun cid cpath d => get_policy_attachments client fs policy_type f cid cpath d)
          ["ORGANIZATIONAL_UNIT", "ACCOUNT"] d2

end resolve_scp_data

namespace generate_scp_ou_structure_and_imports

/-- Folds a recursive call over a list of child ids, concatenating the
returned attachment-name lists and call traces. -/
def gatherKids (recurse : String → List String × Trace) : List String → List String × Trace
  | [] => ([], [])
  | k :: rest =>
    let r := recurse k
    let rr := gatherKids recurse rest
    (r.1 ++ rr.1, r.2 ++ rr.2)

/-- Embeds `get_all_policy_attachments` of
`generate_scp_ou_structure_and_imports.py` (lines 52-84): lists the
policies attached to the current node, and - unless the current id matches
`\d{12}` - lists and recurses into child OUs and then child accounts.
Returns the attachment names (one per attachment point) and the trace of
child-listing calls. -/
def get_all_policy_attachments (client : OrgClient) (policy_type : String) :
    Nat → String → List String × Trace
  | 0, _ => ([], [])
  | Nat.succ f, ou_id =>
    let list_of_policies_attached := client.list_policies_for_target ou_id policy_type
    if matches12 ou_id then
      (list_of_policies_attached, [])
    else
      let child_ous := client.list_organizational_units_for_parent ou_id
      let rOU := gatherKids
        (fun cid => get_all_policy_attachments client policy_type f cid) child_ous
      let child_accounts := client.list_accounts_for_parent ou_id
      let rAcc := gatherKids
        (fun cid => get_all_policy_attachments client policy_type f cid) child_accounts
      (list_of_policies_attached ++ rOU.1 ++ rAcc.1,
       (ou_id, "list_organizational_units_for_parent") ::
         (rOU.2 ++ (ou_id, "list_accounts_for_parent") :: rAcc.2))

end generate_scp_ou_structure_and_imports

/-- Guard for the replace-strips-suffix lemma: `pat` matches at no inner
position of `nl ++ pat` (only at the final position).  Holds for every
name that does not contain the extension as a substring; it is decidable,
so concrete instances are discharged by `decide`. -/
def cleanForStrip (pat : List Char) : List Char → Bool
  | [] => true
  | c :: rest => !pat.isPrefixOf ((c :: rest) ++ pat) && cleanForStrip pat rest

/-- Comparison of the two resolve scripts' results up to error text: both
succeed with the same `data_dict`, or both fail with the same kind of
error, and the call traces agree. -/
@[reducible] def resMatch (a b : Except PErr DataDict × Trace) : Prop :=
  (match a.1, b.1 with
   | .ok d, .ok d' => d = d'
   | .error e, .error e' => kindOf e = kindOf e'
   | _, _ => False) ∧ a.2 = b.2

/-- Mirror-tree side condition under which the two resolve scripts agree:
no file name contains a space and no file name is a shared-marker
(`*.scp.shared` / `*.rcp.shared`) file. -/
def plainFs (fs : FS) : Prop :=
  ∀ pr ∈ fs, ∀ e ∈ pr.2,
    hasSpace e.name = false ∧
    strEndsWith e.name ".scp.shared" = false ∧
    strEndsWith e.name ".rcp.shared" = false

/-- Scenario for C1: root `r-c1rt` with child OUs `ou-A`, `ou-B`, `ou-C`
(in that listing order), mirrored at `ROOT/ouA`, `ROOT/ouB`, `ROOT/ouC`. -/
def c1Client : OrgClient := { baseClient with
  list_children := fun pid ct _ =>
    if pid = "r-c1rt" ∧ ct = "ORGANIZATIONAL_UNIT" then ⟨["ou-A", "ou-B", "ou-C"], none⟩
    else ⟨[], none⟩,
  describe_ou_name := fun cid =>
    if cid = "ou-A" then "ouA" else if cid = "ou-B" then "ouB" else "ouC" }

/-- Mirror for C1: policy `n` attached directly at `ou-A` and through
shared-reference markers at `ou-B` and `ou-C`. -/
def c1Fs (n : String) : FS :=
  [("control_policies_ou_structure/ROOT", []),
   ("control_policies_ou_structure/ROOT/ouA", [⟨n ++ ".scp", true⟩]),
   ("control_policies_ou_structure/ROOT/ouB", [⟨n ++ ".scp.shared", true⟩]),
   ("control_policies_ou_structure/ROOT/ouC", [⟨n ++ ".scp.shared", true⟩])]

/-- Scenario for C2: root with one child that IS an organizational unit
(it is listed under the `ORGANIZATIONAL_UNIT` child type) but whose name
`DEVACCOUNT` ends in `ACCOUNT`. -/
def c2Client : OrgClient := { baseClient with
  list_children := fun pid ct _ =>
    if pid = "r-c2rt" ∧ ct = "ORGANIZATIONAL_UNIT" then ⟨["ou-dev"], none⟩
    else ⟨[], none⟩,
  describe_ou_name := fun _ => "DEVACCOUNT" }

/-- Mirror for C2: the OU folder `DEVACCOUNT` holds 3 customer-owned
attachments. -/
def c2Fs : FS :=
  [("control_policies_ou_structure/ROOT", []),
   ("control_policies_ou_structure/ROOT/DEVACCOUNT",
    [⟨"Pa.scp", true⟩, ⟨"Pb.scp", true⟩, ⟨"Pc.scp", true⟩])]

/-- Mirror used by the C2 witness: an ordinary OU folder and an account
folder, each with the same 3 customer-owned attachments. -/
def c2wFs : FS :=
  [("m/ROOT/Workloads", [⟨"Pa.scp", true⟩, ⟨"Pb.scp", true⟩, ⟨"Pc.scp", true⟩]),
   ("m/ROOT/Prod_ACCOUNT", [⟨"Pa.scp", true⟩, ⟨"Pb.scp", true⟩, ⟨"Pc.scp", true⟩])]

/-- Scenario for C3: root with one child OU `Child`. -/
def c3Client : OrgClient := { baseClient with
  list_children := fun pid ct _ =>
    if pid = "r-c3rt" ∧ ct = "ORGANIZATIONAL_UNIT" then ⟨["ou-ch"], none⟩
    else ⟨[], none⟩,
  describe_ou_name := fun _ => "Child" }

/-- Mirror for C3: the same policy name `P` has a direct-content file at
the root folder and again at the child folder. -/
def c3Fs : FS :=
  [("control_policies_ou_structure/ROOT", [⟨"P.scp", true⟩]),
   ("control_policies_ou_structure/ROOT/Child", [⟨"P.scp", true⟩])]

/-- Mirror for C4: one node holds both a direct-content file and a
shared-reference marker for the same policy name `P`. -/
def c4Fs : FS :=
  [("control_policies_ou_structure/ROOT", [⟨"P.scp", true⟩, ⟨"P.scp.shared", true⟩])]

/-- Scenario for C5: root with one child OU `X`. -/
def c5Client : OrgClient := { baseClient with
  list_children := fun pid ct _ =>
    if pid = "r-c5rt" ∧ ct = "ORGANIZATIONAL_UNIT" then ⟨["ou-X"], none⟩
    else ⟨[], none⟩,
  describe_ou_name := fun _ => "X" }

/-- Mirror for C5: `X`'s directory `control_policies_ou_structure/ROOT/X`
is missing. -/
def c5Fs : FS := [("control_policies_ou_structure/ROOT", [])]

/-- Scenario for C6: the root's `ORGANIZATIONAL_UNIT` listing is paginated
(the first response carries a `NextToken`). -/
def c6Client : OrgClient := { baseClient with
  list_children := fun pid ct tok =>
    if pid = "r-c6rt" ∧ ct = "ORGANIZATIONAL_UNIT" ∧ tok = none then ⟨["ou-x"], some "tok1"⟩
    else ⟨[], none⟩ }

/-- Mirror for C6. -/
def c6Fs : FS := [("control_policies_ou_structure/ROOT", [])]

/-- Scenario for C7: one root, no children. -/
def c7Client : OrgClient := { baseClient with list_roots := ["r-c7rt"] }

/-- Mirror for C7: the root folder lists `Zeta.scp` before `Alpha.scp`. -/
def c7Fs : FS :=
  [("control_policies_ou_structure/ROOT", [⟨"Zeta.scp", true⟩, ⟨"Alpha.scp", true⟩])]

/-- Scenario for the C8 witness: the root has the 12-digit account
`123456789012` as a child. -/
def c8Client : OrgClient := { baseClient with
  list_children := fun pid ct _ =>
    if pid = "r-c8rt" ∧ ct = "ACCOUNT" then ⟨["123456789012"], none⟩ else ⟨[], none⟩,
  describe_account_name := fun _ => "Prod",
  list_accounts_for_parent := fun pid => if pid = "r-c8rt" then ["123456789012"] else [],
  list_policies_for_target := fun _ _ => ["Pol1"] }

/-- Mirror for the C8 witness. -/
def c8Fs : FS :=
  [("control_policies_ou_structure/ROOT", []),
   ("control_policies_ou_structure/ROOT/Prod_ACCOUNT", [])]

/-- Mirror for C9: a single shared-reference marker `N.scp.shared` at the
root folder. -/
def c9Fs : FS := [("control_policies_ou_structure/ROOT", [⟨"N.scp.shared", true⟩])]

/-- Mirror for the C9 witness: no shared markers and no spaces. -/
def c9wFs : FS := [("control_policies_ou_structure/ROOT", [⟨"Solo.scp", true⟩])]

/-! ## Helper lemmas about the runtime model -/

theorem dictGet_dictSet_self (d : DataDict) (k : String) (v : Entry) :
    dictGet (dictSet d k v) k = some v := by
  induction d with
  | nil => simp [dictGet, dictSet]
  | cons kv rest ih =>
    obtain ⟨k', v'⟩ := kv
    by_cases h : k' = k
    · simp [dictGet, dictSet, h]
    · simp [dictGet, dictSet, h, ih]

theorem dictGet_dictSet_ne (d : DataDict) (k m : String) (v : Entry) (h : m ≠ k) :
    dictGet (dictSet d k v) m = dictGet d m := by
  have hkm : ¬k = m := fun e => h e.symm
  induction d with
  | nil => simp [dictGet, dictSet, hkm]
  | cons kv rest ih =>
    obtain ⟨k', v'⟩ := kv
    by_cases hk : k' = k
    · subst hk
      simp [dictGet, dictSet, hkm]
    · by_cases hm : k' = m
      · subst hm
        simp [dictGet, dictSet, hk]
      · simp [dictGet, dictSet, hk, hm, ih]

theorem dictGet_isSome_iff_mem (d : DataDict) (k : String) :
    (dictGet d k).isSome = true ↔ k ∈ dictKeys d := by
  induction d with
  | nil => simp [dictGet, dictKeys]
  | cons kv rest ih =>
    obtain ⟨k', v'⟩ := kv
    by_cases h : k' = k
    · simp [dictGet, dictKeys, h]
    · simp [dictGet, dictKeys, h, ih, Ne.symm h]

theorem dictKeys_dictSet (d : DataDict) (k : String) (v : Entry) :
    dictKeys (dictSet d k v) =
      if (dictGet d k).isSome then dictKeys d else dictKeys d ++ [k] := by
  induction d with
  | nil => simp [dictGet, dictSet, dictKeys]
  | cons kv rest ih =>
    obtain ⟨k', v'⟩ := kv
    by_cases h : k' = k
    · simp [dictGet, dictSet, dictKeys, h]
    · by_cases hs : (dictGet rest k).isSome
      · simp [dictGet, dictSet, dictKeys, h, hs] at ih ⊢
        exact ih
      · simp [dictGet, dictSet, dictKeys, h, hs] at ih ⊢
        exact ih

theorem nodup_dictSet (d : DataDict) (k : String) (v : Entry)
    (h : (dictKeys d).Nodup) : (dictKeys (dictSet d k v)).Nodup := by
  rw [dictKeys_dictSet]
  by_cases hs : (dictGet d k).isSome
  · simpa [hs] using h
  · have hk : k ∉ dictKeys d := by
      intro hmem
      exact hs ((dictGet_isSome_iff_mem d k).2 hmem)
    simp [hs, List.nodup_append, h, hk]

theorem strData_append (a b : String) : (a ++ b).data = a.data ++ b.data := rfl

theorem strEndsWith_iff (s suf : String) :
    strEndsWith s suf = true ↔
      suf.data.length ≤ s.data.length ∧
        s.data.drop (s.data.length - suf.data.length) = suf.data := by
  simp [strEndsWith, Nat.ble_eq]

theorem strEndsWith_append_self (a b : String) : strEndsWith (a ++ b) b = true := by
  rw [strEndsWith_iff]
  refine ⟨?_, ?_⟩
  · simp [strData_append]
  · simp [strData_append, Nat.add_sub_cancel, List.drop_left]

theorem strEndsWith_trans {s y z : String} (h1 : strEndsWith s y = true)
    (h2 : strEndsWith y z = true) : strEndsWith s z = true := by
  rw [strEndsWith_iff] at h1 h2 ⊢
  obtain ⟨l1, e1⟩ := h1
  obtain ⟨l2, e2⟩ := h2
  refine ⟨le_trans l2 l1, ?_⟩
  have hd : s.data.drop (s.data.length - z.data.length) =
      (s.data.drop (s.data.length - y.data.length)).drop
        (y.data.length - z.data.length) := by
    rw [List.drop_drop]
    congr 1
    omega
  rw [hd, e1, e2]

theorem strEndsWith_eq_of_length_eq {s a b : String} (ha : strEndsWith s a = true)
    (hb : strEndsWith s b = true) (hl : a.data.length = b.data.length) :
    a.data = b.data := by
  rw [strEndsWith_iff] at ha hb
  rw [← ha.2, ← hb.2, hl]

theorem strEndsWith_append_right {y x : String} (n : String)
    (h : y.data.length ≤ x.data.length) :
    strEndsWith (n ++ x) y = strEndsWith x y := by
  simp only [strEndsWith, strData_append, List.length_append]
  have h1 : Nat.ble y.data.length (n.data.length + x.data.length) = true := by
    rw [Nat.ble_eq]
    omega
  have h2 : Nat.ble y.data.length x.data.length = true := by
    rw [Nat.ble_eq]
    exact h
  rw [h1, h2]
  have h3 : n.data.length + x.data.length - y.data.length =
      n.data.length + (x.data.length - y.data.length) := by
    omega
  rw [h3, Bool.true_and, Bool.true_and, List.drop_append_eq_append_drop]
  have h4 : n.data.drop (n.data.length + (x.data.length - y.data.length)) = [] := by
    apply List.drop_eq_nil_of_le
    omega
  have h5 : n.data.length + (x.data.length - y.data.length) - n.data.length =
      x.data.length - y.data.length := by
    omega
  rw [h4, h5, List.nil_append]

theorem strStartsWith_append_dot (n x : String) (hne : n.data ≠ []) :
    strStartsWith (n ++ x) "." = strStartsWith n "." := by
  obtain ⟨c, nt, e⟩ := List.exists_cons_of_ne_nil hne
  have hdot : (".").data = ['.'] := rfl
  simp [strStartsWith, strData_append, e, hdot, List.isPrefixOf]

theorem replCharsAux_nil (pat rep : List Char) (f : Nat) :
    replCharsAux pat rep f [] = [] := by
  cases f <;> simp [replCharsAux]

theorem isPrefixOf_rfl (l : List Char) : l.isPrefixOf l = true := by
  induction l with
  | nil => simp [List.isPrefixOf]
  | cons c rest ih => simp [List.isPrefixOf, ih]

theorem replCharsAux_succ_cons (pat rep : List Char) (f : Nat) (c : Char)
    (rest : List Char) :
    replCharsAux pat rep (f + 1) (c :: rest) =
      if !pat.isEmpty && pat.isPrefixOf (c :: rest) then
        rep ++ replCharsAux pat rep f ((c :: rest).drop pat.length)
      else
        c :: replCharsAux pat rep f rest := rfl

theorem replCharsAux_strip (pat : List Char) (hp : pat ≠ []) :
    ∀ (nl : List Char) (f : Nat), (nl ++ pat).length ≤ f →
      cleanForStrip pat nl = true → replCharsAux pat [] f (nl ++ pat) = nl := by
  intro nl
  induction nl with
  | nil =>
    intro f hf _
    obtain ⟨c, pt, e⟩ := List.exists_cons_of_ne_nil hp
    subst e
    cases f with
    | zero => simp at hf
    | succ f' =>
      simp only [List.nil_append] at hf ⊢
      rw [replCharsAux_succ_cons]
      have hg : (!(c :: pt).isEmpty && (c :: pt).isPrefixOf (c :: pt)) = true := by
        simp [isPrefixOf_rfl]
      rw [hg]
      simp [List.drop_length, replCharsAux_nil]
  | cons c nt ih =>
    intro f hf hc
    simp only [cleanForStrip, Bool.and_eq_true, Bool.not_eq_true'] at hc
    obtain ⟨h1, h2⟩ := hc
    cases f with
    | zero => simp at hf
    | succ f' =>
      simp only [List.cons_append] at hf ⊢
      rw [replCharsAux_succ_cons]
      simp only [List.cons_append] at h1
      rw [h1]
      simp only [Bool.and_false, if_false]
      have hf' : (nt ++ pat).length ≤ f' := by
        simp only [List.length_cons, List.length_append] at hf
        simp only [List.length_append]
        omega
      simp [ih f' hf' h2]

theorem pyReplace_strip (n pat : String) (hp : pat.data ≠ [])
    (hc : cleanForStrip pat.data n.data = true) : pyReplace (n ++ pat) pat "" = n := by
  obtain ⟨nd⟩ := n
  obtain ⟨pd⟩ := pat
  simp only [pyReplace, strData_append]
  congr 1
  exact replCharsAux_strip pd hp (nd) ((nd ++ pd).length) le_rfl hc

theorem mem_replCharsAux (pat : List Char) :
    ∀ (f : Nat) (s : List Char) (c : Char), c ∈ replCharsAux pat [] f s → c ∈ s := by
  intro f
  induction f with
  | zero => simp [replCharsAux]
  | succ f ih =>
    intro s c h
    cases s with
    | nil =>
      rw [replCharsAux_nil] at h
      exact h
    | cons a rest =>
      rw [replCharsAux_succ_cons] at h
      by_cases hg : (!pat.isEmpty && pat.isPrefixOf (a :: rest)) = true
      · rw [if_pos hg] at h
        simp only [List.nil_append] at h
        have := ih _ c h
        exact (List.drop_sublist _ _).mem this
      · rw [if_neg hg] at h
        rcases List.mem_cons.1 h with h' | h'
        · exact h' ▸ List.mem_cons_self _ _
        · exact List.mem_cons_of_mem _ (ih _ c h')

theorem hasSpace_pyReplace (s pat : String) (h : hasSpace s = false) :
    hasSpace (pyReplace s pat "") = false := by
  simp only [hasSpace, List.any_eq_false] at h ⊢
  intro c hc
  exact h c (mem_replCharsAux pat.data _ _ c hc)

theorem attachRegexMatch_direct (n : String) :
    attachRegexMatch "scp" (n ++ ".scp") = true := by
  have h : ("." ++ "scp" : String) = ".scp" := rfl
  simp [attachRegexMatch, h, strEndsWith_append_self]

theorem attachRegexMatch_shared (n : String) :
    attachRegexMatch "scp" (n ++ ".scp.shared") = true := by
  have h : ("." ++ "scp" ++ ".shared" : String) = ".scp.shared" := rfl
  simp [attachRegexMatch, h, strEndsWith_append_self]

theorem notEnds_shared_of_direct (n : String) :
    strEndsWith (n ++ ".scp") ".scp.shared" = false := by
  cases hx : strEndsWith (n ++ ".scp") ".scp.shared" with
  | false => rfl
  | true =>
    exfalso
    have h1 : strEndsWith (n ++ ".scp") ".scp" = true := strEndsWith_append_self n ".scp"
    have h2 : strEndsWith (".scp.shared" : String) "ared" = true := by decide
    have h3 : strEndsWith (n ++ ".scp") "ared" = true := strEndsWith_trans hx h2
    have h4 := strEndsWith_eq_of_length_eq h1 h3 (by decide)
    exact absurd h4 (by decide)

theorem notEnds_direct_of_shared (n : String) :
    strEndsWith (n ++ ".scp.shared") ".scp" = false := by
  rw [strEndsWith_append_right n (by decide)]
  decide

theorem globNames_direct_single (n : String) (hne : n.data ≠ [])
    (hdot : strStartsWith n "." = false) :
    globNames [⟨n ++ ".scp", true⟩] ".scp" = [n ++ ".scp"] := by
  simp [globNames, strEndsWith_append_self, strStartsWith_append_dot n ".scp" hne, hdot]

theorem globNames_shared_of_direct (n : String) :
    globNames [⟨n ++ ".scp", true⟩] ".scp.shared" = [] := by
  simp [globNames, notEnds_shared_of_direct]

theorem globNames_direct_of_shared (n : String) :
    globNames [⟨n ++ ".scp.shared", true⟩] ".scp" = [] := by
  simp [globNames, notEnds_direct_of_shared]

theorem globNames_shared_single (n : String) (hne : n.data ≠ [])
    (hdot : strStartsWith n "." = false) :
    globNames [⟨n ++ ".scp.shared", true⟩] ".scp.shared" = [n ++ ".scp.shared"] := by
  simp [globNames, strEndsWith_append_self, strStartsWith_append_dot n ".scp.shared" hne,
        hdot]

theorem countMatching_cons (short : String) (e : DirEntry) (rest : List DirEntry) :
    countMatching short (e :: rest) =
      if e.isFile && attachRegexMatch short e.name then countMatching short rest + 1
      else countMatching short rest := by
  simp only [countMatching, List.filter_cons]
  split <;> simp

theorem verifyLoop_ok_exempt (p short : String) (hp : endsRootOrAccount p = true) :
    ∀ (items : List DirEntry) (k : Nat), k + countMatching short items ≤ 4 →
      verifyLoop p short items k = .ok () := by
  intro items
  induction items with
  | nil => intro k _; rfl
  | cons e rest ih =>
    intro k hk
    rw [countMatching_cons] at hk
    cases hm : (e.isFile && attachRegexMatch short e.name) with
    | true =>
      simp only [hm, if_true] at hk
      simp [verifyLoop, MAX_CUSTOM_POLICY_ATTACHMENTS, hm, hp]
      rw [if_neg (by omega : ¬k + 1 > 4)]
      exact ih (k + 1) (by omega)
    | false =>
      simp only [hm, Bool.false_eq_true, if_false] at hk
      simp [verifyLoop, MAX_CUSTOM_POLICY_ATTACHMENTS, hm, hp]
      rw [if_neg (by omega : ¬k > 4)]
      exact ih k (by omega)

theorem verifyLoop_ou_err (p short : String) (hp : endsRootOrAccount p = false) :
    ∀ (items : List DirEntry) (k : Nat), k ≤ 2 →
      3 ≤ k + countMatching short items →
      verifyLoop p short items k = .error (.ouTooMany p) := by
  intro items
  induction items with
  | nil =>
    intro k hk h3
    exfalso
    simp [countMatching] at h3
    omega
  | cons e rest ih =>
    intro k hk h3
    rw [countMatching_cons] at h3
    cases hm : (e.isFile && attachRegexMatch short e.name) with
    | true =>
      simp only [hm, if_true] at h3
      simp [verifyLoop, MAX_CUSTOM_POLICY_ATTACHMENTS, hm, hp]
      rw [if_neg (by omega : ¬k + 1 > 4)]
      by_cases h2 : k + 1 > 4 - 2
      · rw [if_pos h2]
      · rw [if_neg h2]
        exact ih (k + 1) (by omega) (by omega)
    | false =>
      simp only [hm, Bool.false_eq_true, if_false] at h3
      simp [verifyLoop, MAX_CUSTOM_POLICY_ATTACHMENTS, hm, hp]
      rw [if_neg (by omega : ¬k > 4)]
      by_cases h2 : k > 4 - 2
      · exfalso
        omega
      · rw [if_neg h2]
        exact ih k hk (by omega)

/-! ## Claim theorems -/

/-- C1 counterexample: in the mirror tree where `Deny-Root-User` has a
direct-content file at `ou-A` and shared-reference markers at `ou-B` and
`ou-C` (traversal order A, B, C), the resolve pass yields one entry whose
targets are `[ou-A, ou-B, ou-C]` - but whose canonical path is `ou-A`'s
direct location, NOT the shared-pool location `SHARED/Deny-Root-User`
claimed by the spec. -/
theorem c1_counterexample :
    (resolve_control_policy_data.get_policy_attachments c1Client (c1Fs "Deny-Root-User")
      "SERVICE_CONTROL_POLICY" 3 "r-c1rt" "control_policies_ou_structure/ROOT" []).1 =
      .ok [("Deny-Root-User",
        ⟨"control_policies_ou_structure/ROOT/ouA/Deny-Root-User.scp",
         ["ou-A", "ou-B", "ou-C"]⟩)] ∧
    ("control_policies_ou_structure/ROOT/ouA/Deny-Root-User.scp" : String) ≠
      "control_policies_ou_structure/SHARED/Deny-Root-User.scp" :=
  ⟨rfl, by decide⟩

/-- C2 counterexample: `ou-dev` is an OrganizationalUnit (it is returned by
the `ORGANIZATIONAL_UNIT` child listing) whose name `DEVACCOUNT` ends in
`ACCOUNT`; its folder holds 3 customer-owned attachments, yet the resolve
pass succeeds, because the scripts detect OU folders by the path-suffix
regex `(ROOT|ACCOUNT)$` rather than by node kind. -/
theorem c2_counterexample :
    (resolve_control_policy_data.get_policy_attachments c2Client c2Fs
      "SERVICE_CONTROL_POLICY" 3 "r-c2rt" "control_policies_ou_structure/ROOT" []).1 =
      .ok [("Pa", ⟨"control_policies_ou_structure/ROOT/DEVACCOUNT/Pa.scp", ["ou-dev"]⟩),
           ("Pb", ⟨"control_policies_ou_structure/ROOT/DEVACCOUNT/Pb.scp", ["ou-dev"]⟩),
           ("Pc", ⟨"control_policies_ou_structure/ROOT/DEVACCOUNT/Pc.scp", ["ou-dev"]⟩)] :=
  rfl

/-- C3 counterexample: the policy name `P` has direct-content files at two
nodes (root, then child); the resolve pass does not abort - it silently
overwrites the registry entry with the second origin. -/
theorem c3_counterexample :
    (resolve_control_policy_data.get_policy_attachments c3Client c3Fs
      "SERVICE_CONTROL_POLICY" 3 "r-c3rt" "control_policies_ou_structure/ROOT" []).1 =
      .ok [("P", ⟨"control_policies_ou_structure/ROOT/Child/P.scp", ["ou-ch"]⟩)] :=
  rfl

/-- C4 counterexample: a node holding both `P.scp` and `P.scp.shared`
completes the resolve pass successfully with the node id recorded twice in
the targets list - the claimed `DuplicateTarget` rejection does not exist. -/
theorem c4_counterexample :
    (resolve_control_policy_data.get_policy_attachments baseClient c4Fs
      "SERVICE_CONTROL_POLICY" 2 "r-c4rt" "control_policies_ou_structure/ROOT" []).1 =
      .ok [("P", ⟨"control_policies_ou_structure/ROOT/P.scp", ["r-c4rt", "r-c4rt"]⟩)] ∧
    ¬ (["r-c4rt", "r-c4rt"] : List String).Nodup :=
  ⟨rfl, by decide⟩

/-- C5 counterexample: when OU `X` has no mirror directory the resolve pass
does raise an error recommending the capture pass - but the message is a
fixed string that does not name `X`'s expected path
`control_policies_ou_structure/ROOT/X`. -/
theorem c5_counterexample :
    (resolve_control_policy_data.get_policy_attachments c5Client c5Fs
      "SERVICE_CONTROL_POLICY" 3 "r-c5rt" "control_policies_ou_structure/ROOT" []).1 =
      .error (.fileNotFound resolve_control_policy_data.MISSING_MSG) ∧
    containsSub "control_policies_ou_structure/ROOT/X"
      resolve_control_policy_data.MISSING_MSG = false :=
  ⟨rfl, by decide⟩

/-- C6: whenever a child listing is paginated (the response carries a
`NextToken`), both resolve scripts execute `children.append(...)` on the
response dict and crash with `AttributeError` instead of materializing the
remaining pages - the pagination loop's evident intent.  The walk aborts
after the very first paginated call. -/
theorem c6_code_bug :
    (resolve_control_policy_data.get_policy_attachments c6Client c6Fs
      "SERVICE_CONTROL_POLICY" 3 "r-c6rt" "control_policies_ou_structure/ROOT" []) =
      (.error .attributeError, [("r-c6rt", "ORGANIZATIONAL_UNIT")]) ∧
    (resolve_scp_data.get_policy_attachments c6Client c6Fs
      "SERVICE_CONTROL_POLICY" 3 "r-c6rt" "control_policies_ou_structure/ROOT" []) =
      (.error .attributeError, [("r-c6rt", "ORGANIZATIONAL_UNIT")]) :=
  ⟨rfl, rfl⟩

/-- C7 counterexample: a mirror whose root folder lists `Zeta.scp` before
`Alpha.scp` produces the manifest entries in that traversal (dict
insertion) order, which is not ascending by policy name. -/
theorem c7_counterexample :
    resolve_control_policy_data.main_manifest c7Client c7Fs 2 =
      .ok [⟨"Zeta", "control_policies_ou_structure/ROOT/Zeta.scp", ["r-c7rt"],
             "SERVICE_CONTROL_POLICY"⟩,
           ⟨"Alpha", "control_policies_ou_structure/ROOT/Alpha.scp", ["r-c7rt"],
             "SERVICE_CONTROL_POLICY"⟩] ∧
    chainAsc ["Zeta", "Alpha"] = false :=
  ⟨rfl, by decide⟩

/-- C9 counterexample: on a mirror with a single shared marker
`N.scp.shared`, the control-policy script registers policy `N` at
`SHARED/N.scp` but the SCP script (whose `replace` pattern at line 110 is
not an f-string) registers policy `N.scp.shared` at
`SHARED/N.scp.shared.scp`: the two scripts are not equivalent. -/
theorem c9_counterexample :
    (resolve_control_policy_data.get_policy_attachments baseClient c9Fs
      "SERVICE_CONTROL_POLICY" 2 "r-c9rt" "control_policies_ou_structure/ROOT" []).1 =
      .ok [("N", ⟨"control_policies_ou_structure/SHARED/N.scp", ["r-c9rt"]⟩)] ∧
    (resolve_scp_data.get_policy_attachments baseClient c9Fs
      "SERVICE_CONTROL_POLICY" 2 "r-c9rt" "control_policies_ou_structure/ROOT" []).1 =
      .ok [("N.scp.shared",
        ⟨"control_policies_ou_structure/SHARED/N.scp.shared.scp", ["r-c9rt"]⟩)] ∧
    ([("N", (⟨"control_policies_ou_structure/SHARED/N.scp", ["r-c9rt"]⟩ : Entry))] :
        DataDict) ≠
      [("N.scp.shared",
        ⟨"control_policies_ou_structure/SHARED/N.scp.shared.scp", ["r-c9rt"]⟩)] :=
  ⟨rfl, rfl, by decide⟩

/-- C3 (amended): a direct-content reference for a name the registry
already holds does not abort; it silently overwrites the entry - the path
becomes the current node's location, the targets list is reset to the
current node id alone, and every other entry is untouched.  No
`DuplicateCanonicalSource` error exists in the code. -/
theorem c3_amended (short current_path current_target_id nm : String) (d : DataDict)
    (e : Entry)
    (_hprev : dictGet d (pyReplace nm ("." ++ short) "") = some e)
    (hsp : hasSpace (pyReplace nm ("." ++ short) "") = false) :
    resolve_control_policy_data.processDirect short current_path current_target_id [nm] d =
      .ok (dictSet d (pyReplace nm ("." ++ short) "")
        ⟨current_path ++ "/" ++ pyReplace nm ("." ++ short) "" ++ "." ++ short,
         [current_target_id]⟩) ∧
    dictGet (dictSet d (pyReplace nm ("." ++ short) "")
        ⟨current_path ++ "/" ++ pyReplace nm ("." ++ short) "" ++ "." ++ short,
         [current_target_id]⟩) (pyReplace nm ("." ++ short) "") =
      some ⟨current_path ++ "/" ++ pyReplace nm ("." ++ short) "" ++ "." ++ short,
        [current_target_id]⟩ ∧
    ∀ m, m ≠ pyReplace nm ("." ++ short) "" →
      dictGet (dictSet d (pyReplace nm ("." ++ short) "")
        ⟨current_path ++ "/" ++ pyReplace nm ("." ++ short) "" ++ "." ++ short,
         [current_target_id]⟩) m = dictGet d m := by
  refine ⟨?_, dictGet_dictSet_self _ _ _, fun m hm => dictGet_dictSet_ne _ _ _ _ hm⟩
  simp [resolve_control_policy_data.processDirect, hsp]

/-- C3 witness: overwriting a previously registered direct origin of `P`
at a second node succeeds and replaces the entry. -/
theorem c3_witness :
    dictGet [("P", (⟨"old/P.scp", ["ou-1"]⟩ : Entry))]
        (pyReplace "P.scp" ("." ++ "scp") "") = some ⟨"old/P.scp", ["ou-1"]⟩ ∧
    hasSpace (pyReplace "P.scp" ("." ++ "scp") "") = false ∧
    resolve_control_policy_data.processDirect "scp" "m/ROOT/Child" "ou-2" ["P.scp"]
        [("P", ⟨"old/P.scp", ["ou-1"]⟩)] =
      .ok (dictSet [("P", ⟨"old/P.scp", ["ou-1"]⟩)] (pyReplace "P.scp" ("." ++ "scp") "")
        ⟨"m/ROOT/Child" ++ "/" ++ pyReplace "P.scp" ("." ++ "scp") "" ++ "." ++ "scp",
         ["ou-2"]⟩) :=
  ⟨by decide, by decide,
   (c3_amended "scp" "m/ROOT/Child" "ou-2" "P.scp" [("P", ⟨"old/P.scp", ["ou-1"]⟩)]
     ⟨"old/P.scp", ["ou-1"]⟩ (by decide) (by decide)).1⟩

/-- C4 (amended): appending the node id to an existing entry's targets is
unconditional - there is no duplicate check and no `DuplicateTarget`
error - so when the id is already present it is recorded twice. -/
theorem c4_amended (short current_target_id nm : String) (d : DataDict) (e : Entry)
    (hprev : dictGet d (pyReplace nm ("." ++ short ++ ".shared") "") = some e)
    (hdup : current_target_id ∈ e.targets) :
    resolve_control_policy_data.processSharedOne short current_target_id d nm =
      dictSet d (pyReplace nm ("." ++ short ++ ".shared") "")
        ⟨e.path, e.targets ++ [current_target_id]⟩ ∧
    2 ≤ (e.targets ++ [current_target_id]).count current_target_id := by
  constructor
  · simp [resolve_control_policy_data.processSharedOne, hprev]
  · have h1 : 0 < e.targets.count current_target_id := List.count_pos_iff.mpr hdup
    have h2 : ([current_target_id] : List String).count current_target_id = 1 := by simp
    rw [List.count_append, h2]
    omega

/-- C4 witness: a shared marker for `P` at a node whose id is already in
`P`'s target list appends the id again without error. -/
theorem c4_witness :
    dictGet [("P", (⟨"m/SHARED/P.scp", ["ou-1"]⟩ : Entry))]
        (pyReplace "P.scp.shared" ("." ++ "scp" ++ ".shared") "") =
      some ⟨"m/SHARED/P.scp", ["ou-1"]⟩ ∧
    ("ou-1" : String) ∈ (["ou-1"] : List String) ∧
    resolve_control_policy_data.processSharedOne "scp" "ou-1"
        [("P", ⟨"m/SHARED/P.scp", ["ou-1"]⟩)] "P.scp.shared" =
      dictSet [("P", ⟨"m/SHARED/P.scp", ["ou-1"]⟩)]
        (pyReplace "P.scp.shared" ("." ++ "scp" ++ ".shared") "")
        ⟨"m/SHARED/P.scp", ["ou-1"] ++ ["ou-1"]⟩ ∧
    2 ≤ ((["ou-1"] : List String) ++ ["ou-1"]).count "ou-1" :=
  ⟨by decide, by decide,
   (c4_amended "scp" "ou-1" "P.scp.shared" [("P", ⟨"m/SHARED/P.scp", ["ou-1"]⟩)]
     ⟨"m/SHARED/P.scp", ["ou-1"]⟩ (by decide) (by decide)).1,
   (c4_amended "scp" "ou-1" "P.scp.shared" [("P", ⟨"m/SHARED/P.scp", ["ou-1"]⟩)]
     ⟨"m/SHARED/P.scp", ["ou-1"]⟩ (by decide) (by decide)).2⟩

/-- C10: processing a shared-reference marker for a name the registry
already holds only appends the current node id at the end of that entry's
targets; the entry's canonical path and every other registry entry are
unchanged. -/
theorem c10_frame (short current_target_id nm : String) (d : DataDict) (e : Entry)
    (hprev : dictGet d (pyReplace nm ("." ++ short ++ ".shared") "") = some e) :
    dictGet (resolve_control_policy_data.processSharedOne short current_target_id d nm)
        (pyReplace nm ("." ++ short ++ ".shared") "") =
      some ⟨e.path, e.targets ++ [current_target_id]⟩ ∧
    ∀ m, m ≠ pyReplace nm ("." ++ short ++ ".shared") "" →
      dictGet (resolve_control_policy_data.processSharedOne short current_target_id d nm)
          m =
        dictGet d m := by
  constructor
  · simp [resolve_control_policy_data.processSharedOne, hprev, dictGet_dictSet_self]
  · intro m hm
    simp [resolve_control_policy_data.processSharedOne, hprev,
      dictGet_dictSet_ne _ _ _ _ hm]

/-- C10 witness: appending `ou-2` to `P`'s targets leaves `P`'s path and
the unrelated entry `Q` unchanged. -/
theorem c10_witness :
    dictGet [("P", (⟨"m/SHARED/P.scp", ["ou-1"]⟩ : Entry)),
             ("Q", ⟨"m/ROOT/Q.scp", ["r-1"]⟩)]
        (pyReplace "P.scp.shared" ("." ++ "scp" ++ ".shared") "") =
      some ⟨"m/SHARED/P.scp", ["ou-1"]⟩ ∧
    dictGet (resolve_control_policy_data.processSharedOne "scp" "ou-2"
        [("P", ⟨"m/SHARED/P.scp", ["ou-1"]⟩), ("Q", ⟨"m/ROOT/Q.scp", ["r-1"]⟩)]
        "P.scp.shared")
        (pyReplace "P.scp.shared" ("." ++ "scp" ++ ".shared") "") =
      some ⟨"m/SHARED/P.scp", ["ou-1"] ++ ["ou-2"]⟩ ∧
    dictGet (resolve_control_policy_data.processSharedOne "scp" "ou-2"
        [("P", ⟨"m/SHARED/P.scp", ["ou-1"]⟩), ("Q", ⟨"m/ROOT/Q.scp", ["r-1"]⟩)]
        "P.scp.shared") "Q" =
      dictGet [("P", (⟨"m/SHARED/P.scp", ["ou-1"]⟩ : Entry)),
               ("Q", ⟨"m/ROOT/Q.scp", ["r-1"]⟩)] "Q" :=
  ⟨by decide,
   (c10_frame "scp" "ou-2" "P.scp.shared"
     [("P", ⟨"m/SHARED/P.scp", ["ou-1"]⟩), ("Q", ⟨"m/ROOT/Q.scp", ["r-1"]⟩)]
     ⟨"m/SHARED/P.scp", ["ou-1"]⟩ (by decide)).1,
   (c10_frame "scp" "ou-2" "P.scp.shared"
     [("P", ⟨"m/SHARED/P.scp", ["ou-1"]⟩), ("Q", ⟨"m/ROOT/Q.scp", ["r-1"]⟩)]
     ⟨"m/SHARED/P.scp", ["ou-1"]⟩ (by decide)).2 "Q" (by decide)⟩

/-- C2 (amended): with ceiling `C = 4` and reserved `R = 2`, validation
raises the structural violation according to the scripts' path-suffix
test, not the node kind: a folder whose path does not end in `ROOT` or
`ACCOUNT` fails with the OU error as soon as it holds 3 (or more)
customer-owned attachments, while any folder whose path ends in `ROOT` or
`ACCOUNT` - every Root and Account folder, but also any OU whose name ends
in those suffixes - passes whenever its count is at most 4. -/
theorem c2_amended (fs : FS) (p : String) (items : List DirEntry)
    (hfs : fsList fs p = some items) :
    (endsRootOrAccount p = false → 3 ≤ countMatching "scp" items →
      verify_attachment_counts fs p "SERVICE_CONTROL_POLICY" =
        .error (.ouTooMany p)) ∧
    (endsRootOrAccount p = true → countMatching "scp" items ≤ 4 →
      verify_attachment_counts fs p "SERVICE_CONTROL_POLICY" = .ok ()) := by
  have hshort : shortNameOf "SERVICE_CONTROL_POLICY" = some "scp" := rfl
  constructor
  · intro hp h3
    simp only [verify_attachment_counts, hshort, hfs]
    exact verifyLoop_ou_err p "scp" hp items 0 (by omega) (by omega)
  · intro hp h4
    simp only [verify_attachment_counts, hshort, hfs]
    exact verifyLoop_ok_exempt p "scp" hp items 0 (by omega)

/-- C2 witness: an ordinary OU folder with 3 customer-owned attachments
fails with the structural violation, while an account folder with the same
3 attachments passes. -/
theorem c2_witness :
    fsList c2wFs "m/ROOT/Workloads" =
      some [⟨"Pa.scp", true⟩, ⟨"Pb.scp", true⟩, ⟨"Pc.scp", true⟩] ∧
    endsRootOrAccount "m/ROOT/Workloads" = false ∧
    3 ≤ countMatching "scp" [⟨"Pa.scp", true⟩, ⟨"Pb.scp", true⟩, ⟨"Pc.scp", true⟩] ∧
    verify_attachment_counts c2wFs "m/ROOT/Workloads" "SERVICE_CONTROL_POLICY" =
      .error (.ouTooMany "m/ROOT/Workloads") ∧
    fsList c2wFs "m/ROOT/Prod_ACCOUNT" =
      some [⟨"Pa.scp", true⟩, ⟨"Pb.scp", true⟩, ⟨"Pc.scp", true⟩] ∧
    endsRootOrAccount "m/ROOT/Prod_ACCOUNT" = true ∧
    countMatching "scp" [⟨"Pa.scp", true⟩, ⟨"Pb.scp", true⟩, ⟨"Pc.scp", true⟩] ≤ 4 ∧
    verify_attachment_counts c2wFs "m/ROOT/Prod_ACCOUNT" "SERVICE_CONTROL_POLICY" =
      .ok () :=
  ⟨by decide, by decide, by decide,
   (c2_amended c2wFs "m/ROOT/Workloads"
     [⟨"Pa.scp", true⟩, ⟨"Pb.scp", true⟩, ⟨"Pc.scp", true⟩] (by decide)).1
     (by decide) (by decide),
   by decide, by decide, by decide,
   (c2_amended c2wFs "m/ROOT/Prod_ACCOUNT"
     [⟨"Pa.scp", true⟩, ⟨"Pb.scp", true⟩, ⟨"Pc.scp", true⟩] (by decide)).2
     (by decide) (by decide)⟩

/-- One-step unfolding of the control-policy walker at positive fuel (kept
as an explicit lemma so rewriting does not touch the recursive call). -/
theorem gpa_cpd_succ (client : OrgClient) (fs : FS) (ptype : String) (f : Nat)
    (id path : String) (d : DataDict) :
    resolve_control_policy_data.get_policy_attachments client fs ptype (f + 1) id path d =
      match shortNameOf ptype with
      | none => (.error (.unsupportedPolicy ptype), [])
      | some short =>
        match verify_attachment_counts fs path ptype with
        | .error e => (.error e, [])
        | .ok _ =>
          match resolve_control_policy_data.processDirect short path id
              (globNames ((fsList fs path).getD []) ("." ++ short)) d with
          | .error e => (.error e, [])
          | .ok d1 =>
            resolve_control_policy_data.walkChildTypes client id path
              (fun cid cpath dd => resolve_control_policy_data.get_policy_attachments
                client fs ptype f cid cpath dd)
              ["ORGANIZATIONAL_UNIT", "ACCOUNT"]
              (resolve_control_policy_data.processShared short id
                (globNames ((fsList fs path).getD []) ("." ++ short ++ ".shared")) d1) := rfl

/-- C5 (amended): when a child OU of the live hierarchy has no mirror
directory, the resolve pass raises `FileNotFoundError` carrying the
constant `MISSING_MSG` (which recommends rerunning the capture pass but
does not name the node's expected path), rather than treating the node as
having an empty attachment set. -/
theorem c5_amended (client : OrgClient) (fs : FS) (f : Nat)
    (current_target_id current_path : String) (d : DataDict) (cid : String)
    (hid : matches12 current_target_id = false)
    (hfs : fsList fs current_path = some [])
    (hou : client.list_children current_target_id "ORGANIZATIONAL_UNIT" none =
      ⟨[cid], none⟩)
    (hmiss : fsList fs (current_path ++ "/" ++ client.describe_ou_name cid) = none) :
    (resolve_control_policy_data.get_policy_attachments client fs
      "SERVICE_CONTROL_POLICY" (f + 2) current_target_id current_path d).1 =
      .error (.fileNotFound resolve_control_policy_data.MISSING_MSG) := by
  have hshort : shortNameOf "SERVICE_CONTROL_POLICY" = some "scp" := rfl
  have hchild : (resolve_control_policy_data.get_policy_attachments client fs
      "SERVICE_CONTROL_POLICY" (f + 1) cid
      (current_path ++ "/" ++ client.describe_ou_name cid) d) =
      (.error (.fileNotFound ("[Errno 2] No such file or directory: " ++
        (current_path ++ "/" ++ client.describe_ou_name cid))), []) := by
    rw [gpa_cpd_succ]
    simp only [hshort, verify_attachment_counts, hmiss]
  have hverify : verify_attachment_counts fs current_path "SERVICE_CONTROL_POLICY" =
      .ok () := by
    simp only [verify_attachment_counts, hshort, hfs]
    rfl
  rw [show f + 2 = (f + 1) + 1 from rfl, gpa_cpd_succ]
  simp only [hshort, hverify, hfs, Option.getD_some]
  simp only [globNames, List.filter_nil, List.map_nil,
    resolve_control_policy_data.processDirect, resolve_control_policy_data.processShared]
  simp only [resolve_control_policy_data.walkChildTypes, hid, Bool.false_eq_true,
    if_false, hou]
  have hct : (if ("ORGANIZATIONAL_UNIT" : String) = "ORGANIZATIONAL_UNIT" then
      client.describe_ou_name cid
    else client.describe_account_name cid ++ resolve_control_policy_data.ACCOUNT_SUFFIX) =
      client.describe_ou_name cid := if_pos rfl
  simp only [resolve_control_policy_data.walkKids, hct, if_true, Option.isSome_none,
    Bool.false_eq_true, if_false, hchild]

/-- C5 witness: the concrete hierarchy with OU `X` missing from the mirror
raises the constant-message `FileNotFoundError`. -/
theorem c5_witness :
    matches12 "r-c5rt" = false ∧
    fsList c5Fs "control_policies_ou_structure/ROOT" = some [] ∧
    c5Client.list_children "r-c5rt" "ORGANIZATIONAL_UNIT" none = ⟨["ou-X"], none⟩ ∧
    fsList c5Fs ("control_policies_ou_structure/ROOT" ++ "/" ++
      c5Client.describe_ou_name "ou-X") = none ∧
    (resolve_control_policy_data.get_policy_attachments c5Client c5Fs
      "SERVICE_CONTROL_POLICY" (1 + 2) "r-c5rt" "control_policies_ou_structure/ROOT"
      []).1 =
      .error (.fileNotFound resolve_control_policy_data.MISSING_MSG) :=
  ⟨by decide, by decide, by decide, by decide,
   c5_amended c5Client c5Fs 1 "r-c5rt" "control_policies_ou_structure/ROOT" [] "ou-X"
     (by decide) (by decide) (by decide) (by decide)⟩

/-- Every parent id recorded in a `walkKids` trace comes from the
recursive calls. -/
theorem walkKids_cpd_trace (client : OrgClient) (ctype cpath : String)
    (recurse : String → String → DataDict → Except PErr DataDict × Trace)
    (hrec : ∀ cid cp dd pr, pr ∈ (recurse cid cp dd).2 → matches12 pr.1 = false) :
    ∀ (kids : List String) (d : DataDict) (pr : String × String),
      pr ∈ (resolve_control_policy_data.walkKids client ctype cpath recurse kids d).2 →
      matches12 pr.1 = false := by
  intro kids
  induction kids with
  | nil =>
    intro d pr h
    simp [resolve_control_policy_data.walkKids] at h
  | cons cid rest ih =>
    intro d pr h
    simp only [resolve_control_policy_data.walkKids] at h
    split at h
    · exact hrec _ _ _ _ h
    · exact hrec _ _ _ _ h
    · rcases List.mem_append.1 h with h' | h'
      · exact hrec _ _ _ _ h'
      · exact ih _ pr h'

/-- Every parent id recorded in a `walkChildTypes` trace fails the
12-digit test: the current node is only recorded under the guard, and all
other entries come from the recursive calls. -/
theorem walkChildTypes_cpd_trace (client : OrgClient) (id path : String)
    (recurse : String → String → DataDict → Except PErr DataDict × Trace)
    (hrec : ∀ cid cp dd pr, pr ∈ (recurse cid cp dd).2 → matches12 pr.1 = false) :
    ∀ (cts : List String) (d : DataDict) (pr : String × String),
      pr ∈ (resolve_control_policy_data.walkChildTypes client id path recurse cts d).2 →
      matches12 pr.1 = false := by
  intro cts
  induction cts with
  | nil =>
    intro d pr h
    simp [resolve_control_policy_data.walkChildTypes] at h
  | cons ct rest ih =>
    intro d pr h
    simp only [resolve_control_policy_data.walkChildTypes] at h
    cases hmid : matches12 id with
    | true =>
      simp only [hmid, if_true] at h
      exact ih _ pr h
    | false =>
      simp only [hmid, Bool.false_eq_true, if_false] at h
      cases htok : (client.list_children id ct none).nextToken.isSome with
      | true =>
        simp only [htok, if_true] at h
        rcases List.mem_singleton.1 h with rfl
        exact hmid
      | false =>
        simp only [htok, Bool.false_eq_true, if_false] at h
        split at h
        · rcases List.mem_cons.1 h with rfl | h'
          · exact hmid
          · exact walkKids_cpd_trace client ct path recurse hrec _ _ pr h'
        · rcases List.mem_cons.1 h with rfl | h'
          · exact hmid
          · rcases List.mem_append.1 h' with h'' | h''
            · exact walkKids_cpd_trace client ct path recurse hrec _ _ pr h''
            · exact ih _ pr h''

/-- Every parent id in the control-policy walker's `list_children` trace
fails the `\d{12}` test. -/
theorem gpa_cpd_trace (client : OrgClient) (fs : FS) (policy_type : String) :
    ∀ (fuel : Nat) (id path : String) (d : DataDict) (pr : String × String),
      pr ∈ (resolve_control_policy_data.get_policy_attachments client fs policy_type
        fuel id path d).2 → matches12 pr.1 = false := by
  intro fuel
  induction fuel with
  | zero =>
    intro id path d pr h
    simp [resolve_control_policy_data.get_policy_attachments] at h
  | succ f ih =>
    intro id path d pr h
    rw [gpa_cpd_succ] at h
    split at h
    · simp at h
    · split at h
      · simp at h
      · split at h
        · simp at h
        · exact walkChildTypes_cpd_trace client id path _
            (fun cid cp dd pr' h' => ih cid cp dd pr' h') _ _ pr h

/-- One-step unfolding of the capture-side frequency walker at positive
fuel. -/
theorem gapa_succ (client : OrgClient) (policy_type : String) (f : Nat) (ou_id : String) :
    generate_scp_ou_structure_and_imports.get_all_policy_attachments client policy_type
      (f + 1) ou_id =
      if matches12 ou_id then
        (client.list_policies_for_target ou_id policy_type, [])
      else
        ((client.list_policies_for_target ou_id policy_type ++
          (generate_scp_ou_structure_and_imports.gatherKids
            (fun cid => generate_scp_ou_structure_and_imports.get_all_policy_attachments
              client policy_type f cid)
            (client.list_organizational_units_for_parent ou_id)).1 ++
          (generate_scp_ou_structure_and_imports.gatherKids
            (fun cid => generate_scp_ou_structure_and_imports.get_all_policy_attachments
              client policy_type f cid)
            (client.list_accounts_for_parent ou_id)).1),
         (ou_id, "list_organizational_units_for_parent") ::
           ((generate_scp_ou_structure_and_imports.gatherKids
             (fun cid => generate_scp_ou_structure_and_imports.get_all_policy_attachments
               client policy_type f cid)
             (client.list_organizational_units_for_parent ou_id)).2 ++
            (ou_id, "list_accounts_for_parent") ::
              (generate_scp_ou_structure_and_imports.gatherKids
                (fun cid => generate_scp_ou_structure_and_imports.get_all_policy_attachments
                  client policy_type f cid)
                (client.list_accounts_for_parent ou_id)).2)) := rfl

/-- Every parent id recorded by `gatherKids` comes from the recursive
calls. -/
theorem gatherKids_trace (recurse : String → List String × Trace)
    (hrec : ∀ cid pr, pr ∈ (recurse cid).2 → matches12 pr.1 = false) :
    ∀ (kids : List String) (pr : String × String),
      pr ∈ (generate_scp_ou_structure_and_imports.gatherKids recurse kids).2 →
      matches12 pr.1 = false := by
  intro kids
  induction kids with
  | nil =>
    intro pr h
    simp [generate_scp_ou_structure_and_imports.gatherKids] at h
  | cons cid rest ih =>
    intro pr h
    simp only [generate_scp_ou_structure_and_imports.gatherKids] at h
    rcases List.mem_append.1 h with h' | h'
    · exact hrec _ _ h'
    · exact ih pr h'

/-- Every parent id in the capture-side walker's child-listing trace fails
the `\d{12}` test. -/
theorem gapa_trace (client : OrgClient) (policy_type : String) :
    ∀ (fuel : Nat) (ou_id : String) (pr : String × String),
      pr ∈ (generate_scp_ou_structure_and_imports.get_all_policy_attachments client
        policy_type fuel ou_id).2 → matches12 pr.1 = false := by
  intro fuel
  induction fuel with
  | zero =>
    intro ou_id pr h
    simp [generate_scp_ou_structure_and_imports.get_all_policy_attachments] at h
  | succ f ih =>
    intro ou_id pr h
    rw [gapa_succ] at h
    cases hmid : matches12 ou_id with
    | true =>
      simp only [hmid, if_true] at h
      simp at h
    | false =>
      simp only [hmid, Bool.false_eq_true, if_false] at h
      rcases List.mem_cons.1 h with rfl | h'
      · exact hmid
      · rcases List.mem_append.1 h' with h'' | h''
        · exact gatherKids_trace _ (fun cid pr' hp => ih cid pr' hp) _ pr h''
        · rcases List.mem_cons.1 h'' with rfl | h3
          · exact hmid
          · exact gatherKids_trace _ (fun cid pr' hp => ih cid pr' hp) _ pr h3

/-- A 12-digit account id satisfies the walker's `re.match(r"\d{12}", id)`
test. -/
theorem matches12_of_isAccountId (s : String) (h : isAccountId s = true) :
    matches12 s = true := by
  simp only [isAccountId, Bool.and_eq_true, beq_iff_eq] at h
  obtain ⟨hlen, hall⟩ := h
  simp only [matches12, Bool.and_eq_true]
  constructor
  · rw [Nat.ble_eq]
    omega
  · rw [List.take_of_length_le (by omega)]
    exact hall

/-- C8: neither walker ever invokes a child-listing operation with a
12-digit account id as the parent: the resolve walker's `list_children`
trace and the capture walker's `list_organizational_units_for_parent` /
`list_accounts_for_parent` trace never contain an account id. -/
theorem c8_no_child_listing_on_accounts (client : OrgClient) (fs : FS)
    (policy_type : String) (fuel : Nat) (id path : String) (d : DataDict)
    (acct ct : String) (hacct : isAccountId acct = true) :
    (acct, ct) ∉ (resolve_control_policy_data.get_policy_attachments client fs
      policy_type fuel id path d).2 ∧
    (acct, ct) ∉ (generate_scp_ou_structure_and_imports.get_all_policy_attachments client
      policy_type fuel id).2 := by
  have hm : matches12 acct = true := matches12_of_isAccountId acct hacct
  constructor
  · intro hmem
    have hfalse := gpa_cpd_trace client fs policy_type fuel id path d (acct, ct) hmem
    rw [hm] at hfalse
    exact absurd hfalse (by decide)
  · intro hmem
    have hfalse := gapa_trace client policy_type fuel id (acct, ct) hmem
    rw [hm] at hfalse
    exact absurd hfalse (by decide)

/-- C8 witness: in the concrete hierarchy whose root has the 12-digit
account `123456789012` as a child, no child-listing call of either walker
has that account as parent. -/
theorem c8_witness :
    isAccountId "123456789012" = true ∧
    ("123456789012", "ORGANIZATIONAL_UNIT") ∉
      (resolve_control_policy_data.get_policy_attachments c8Client c8Fs
        "SERVICE_CONTROL_POLICY" 3 "r-c8rt" "control_policies_ou_structure/ROOT" []).2 ∧
    ("123456789012", "ORGANIZATIONAL_UNIT") ∉
      (generate_scp_ou_structure_and_imports.get_all_policy_attachments c8Client
        "SERVICE_CONTROL_POLICY" 3 "r-c8rt").2 :=
  ⟨by decide,
   (c8_no_child_listing_on_accounts c8Client c8Fs "SERVICE_CONTROL_POLICY" 3 "r-c8rt"
     "control_policies_ou_structure/ROOT" [] "123456789012" "ORGANIZATIONAL_UNIT"
     (by decide)).1,
   (c8_no_child_listing_on_accounts c8Client c8Fs "SERVICE_CONTROL_POLICY" 3 "r-c8rt"
     "control_policies_ou_structure/ROOT" [] "123456789012" "ORGANIZATIONAL_UNIT"
     (by decide)).2⟩

/-- The direct-file loop preserves distinctness of registry keys. -/
theorem processDirect_cpd_nodup (short p id : String) :
    ∀ (names : List String) (d d' : DataDict),
      resolve_control_policy_data.processDirect short p id names d = .ok d' →
      (dictKeys d).Nodup → (dictKeys d').Nodup := by
  intro names
  induction names with
  | nil =>
    intro d d' h hn
    simp only [resolve_control_policy_data.processDirect, Except.ok.injEq] at h
    exact h ▸ hn
  | cons nm rest ih =>
    intro d d' h hn
    simp only [resolve_control_policy_data.processDirect] at h
    cases hsp : hasSpace (pyReplace nm ("." ++ short) "") with
    | true =>
      rw [hsp] at h
      simp at h
    | false =>
      rw [hsp] at h
      simp only [Bool.false_eq_true, if_false] at h
      exact ih _ _ h (nodup_dictSet _ _ _ hn)

/-- The shared-marker loop preserves distinctness of registry keys. -/
theorem processShared_cpd_nodup (short id : String) :
    ∀ (names : List String) (d : DataDict), (dictKeys d).Nodup →
      (dictKeys (resolve_control_policy_data.processShared short id names d)).Nodup := by
  intro names
  induction names with
  | nil =>
    intro d hn
    exact hn
  | cons nm rest ih =>
    intro d hn
    simp only [resolve_control_policy_data.processShared]
    have hone : (dictKeys
        (resolve_control_policy_data.processSharedOne short id d nm)).Nodup := by
      cases hget : dictGet d (pyReplace nm ("." ++ short ++ ".shared") "") with
      | none =>
        simp only [resolve_control_policy_data.processSharedOne, hget]
        exact nodup_dictSet _ _ _ hn
      | some e =>
        simp only [resolve_control_policy_data.processSharedOne, hget]
        exact nodup_dictSet _ _ _ hn
    exact ih _ hone

/-- The per-child loop preserves distinctness of registry keys, given that
each recursive call does. -/
theorem walkKids_cpd_nodup (client : OrgClient) (ctype cpath : String)
    (recurse : String → String → DataDict → Except PErr DataDict × Trace)
    (hrec : ∀ cid cp dd dd', (dictKeys dd).Nodup → (recurse cid cp dd).1 = .ok dd' →
      (dictKeys dd').Nodup) :
    ∀ (kids : List String) (d d' : DataDict), (dictKeys d).Nodup →
      (resolve_control_policy_data.walkKids client ctype cpath recurse kids d).1 =
        .ok d' →
      (dictKeys d').Nodup := by
  intro kids
  induction kids with
  | nil =>
    intro d d' hn h
    simp only [resolve_control_policy_data.walkKids, Except.ok.injEq] at h
    exact h ▸ hn
  | cons cid rest ih =>
    intro d d' hn h
    simp only [resolve_control_policy_data.walkKids] at h
    split at h
    · simp at h
    · simp at h
    · next d1 heq =>
      exact ih _ _ (hrec _ _ _ _ hn heq) h

/-- The child-type loop preserves distinctness of registry keys, given
that each recursive call does. -/
theorem walkChildTypes_cpd_nodup (client : OrgClient) (id path : String)
    (recurse : String → String → DataDict → Except PErr DataDict × Trace)
    (hrec : ∀ cid cp dd dd', (dictKeys dd).Nodup → (recurse cid cp dd).1 = .ok dd' →
      (dictKeys dd').Nodup) :
    ∀ (cts : List String) (d d' : DataDict), (dictKeys d).Nodup →
      (resolve_control_policy_data.walkChildTypes client id path recurse cts d).1 =
        .ok d' →
      (dictKeys d').Nodup := by
  intro cts
  induction cts with
  | nil =>
    intro d d' hn h
    simp only [resolve_control_policy_data.walkChildTypes, Except.ok.injEq] at h
    exact h ▸ hn
  | cons ct rest ih =>
    intro d d' hn h
    simp only [resolve_control_policy_data.walkChildTypes] at h
    cases hmid : matches12 id with
    | true =>
      rw [hmid] at h
      simp only [if_true] at h
      exact ih _ _ hn h
    | false =>
      rw [hmid] at h
      simp only [Bool.false_eq_true, if_false] at h
      cases htok : (client.list_children id ct none).nextToken.isSome with
      | true =>
        rw [htok] at h
        simp at h
      | false =>
        rw [htok] at h
        simp only [Bool.false_eq_true, if_false] at h
        split at h
        · simp at h
        · next d1 heq =>
          exact ih _ _ (walkKids_cpd_nodup client ct path recurse hrec _ _ _ hn heq) h

/-- A completed walk of the control-policy resolver, started from a
registry with distinct keys, ends with distinct keys: one entry per
distinct policy name. -/
theorem gpa_cpd_nodup (client : OrgClient) (fs : FS) (policy_type : String) :
    ∀ (fuel : Nat) (id path : String) (d d' : DataDict), (dictKeys d).Nodup →
      (resolve_control_policy_data.get_policy_attachments client fs policy_type fuel
        id path d).1 = .ok d' →
      (dictKeys d').Nodup := by
  intro fuel
  induction fuel with
  | zero =>
    intro id path d d' _ h
    simp [resolve_control_policy_data.get_policy_attachments] at h
  | succ f ih =>
    intro id path d d' hn h
    rw [gpa_cpd_succ] at h
    split at h
    · simp at h
    · split at h
      · simp at h
      · split at h
        · simp at h
        · next d1 heq =>
          refine walkChildTypes_cpd_nodup client id path _
            (fun cid cp dd dd' hdd hok => ih cid cp dd dd' hdd hok) _ _ _ ?_ h
          exact processShared_cpd_nodup _ _ _ _
            (processDirect_cpd_nodup _ _ _ _ _ _ heq hn)

/-- Manifest records of one pass all carry that pass's policy type. -/
theorem entriesOf_filter_self (d : DataDict) (t : String) :
    (resolve_control_policy_data.entriesOf d t).filter
      (fun e => e.cp_type == t) = resolve_control_policy_data.entriesOf d t := by
  apply List.filter_eq_self.mpr
  intro e he
  simp only [resolve_control_policy_data.entriesOf, List.mem_map] at he
  obtain ⟨kv, _, rfl⟩ := he
  simp

/-- Manifest records of the other pass never match this pass's type. -/
theorem entriesOf_filter_ne (d : DataDict) (t t' : String) (hne : t' ≠ t) :
    (resolve_control_policy_data.entriesOf d t').filter
      (fun e => e.cp_type == t) = [] := by
  rw [List.filter_eq_nil_iff]
  intro e he
  simp only [resolve_control_policy_data.entriesOf, List.mem_map] at he
  obtain ⟨kv, _, rfl⟩ := he
  simp [hne]

/-- The names of one pass's manifest records are exactly the registry
keys, in order. -/
theorem entriesOf_map_name (d : DataDict) (t : String) :
    (resolve_control_policy_data.entriesOf d t).map (fun e => e.cp_name) = dictKeys d := by
  simp [resolve_control_policy_data.entriesOf, dictKeys, List.map_map, Function.comp]

/-- C7 (amended): a completed walk emits exactly one manifest entry per
distinct policy name within each policy-type pass (the per-pass names are
distinct); the entries appear in registry insertion (traversal) order and
are not sorted by name. -/
theorem c7_amended (client : OrgClient) (fs : FS) (fuel : Nat)
    (l : List resolve_control_policy_data.ManifestEntry)
    (h : resolve_control_policy_data.main_manifest client fs fuel = .ok l) :
    ((l.filter (fun e => e.cp_type == "SERVICE_CONTROL_POLICY")).map
      (fun e => e.cp_name)).Nodup ∧
    ((l.filter (fun e => e.cp_type == "RESOURCE_CONTROL_POLICY")).map
      (fun e => e.cp_name)).Nodup := by
  unfold resolve_control_policy_data.main_manifest at h
  split at h
  · simp at h
  · simp only [] at h
    split at h
    · simp at h
    · next d1 heq1 =>
      split at h
      · simp at h
      · next d2 heq2 =>
        simp only [Except.ok.injEq] at h
        subst h
        have hn1 : (dictKeys d1).Nodup :=
          gpa_cpd_nodup client fs "SERVICE_CONTROL_POLICY" fuel _ _ [] d1
            (by simp [dictKeys]) heq1
        have hn2 : (dictKeys d2).Nodup :=
          gpa_cpd_nodup client fs "RESOURCE_CONTROL_POLICY" fuel _ _ [] d2
            (by simp [dictKeys]) heq2
        constructor
        · rw [List.filter_append, entriesOf_filter_self,
            entriesOf_filter_ne d2 "SERVICE_CONTROL_POLICY" "RESOURCE_CONTROL_POLICY"
              (by decide),
            List.append_nil, entriesOf_map_name]
          exact hn1
        · rw [List.filter_append,
            entriesOf_filter_ne d1 "RESOURCE_CONTROL_POLICY" "SERVICE_CONTROL_POLICY"
              (by decide),
            entriesOf_filter_self, List.nil_append, entriesOf_map_name]
          exact hn2

/-- C7 witness: the Zeta/Alpha manifest has distinct names per pass (while
`c7_counterexample` shows the order is traversal order, not sorted). -/
theorem c7_amended_witness :
    resolve_control_policy_data.main_manifest c7Client c7Fs 2 =
      .ok [⟨"Zeta", "control_policies_ou_structure/ROOT/Zeta.scp", ["r-c7rt"],
             "SERVICE_CONTROL_POLICY"⟩,
           ⟨"Alpha", "control_policies_ou_structure/ROOT/Alpha.scp", ["r-c7rt"],
             "SERVICE_CONTROL_POLICY"⟩] ∧
    ((([⟨"Zeta", "control_policies_ou_structure/ROOT/Zeta.scp", ["r-c7rt"],
          "SERVICE_CONTROL_POLICY"⟩,
        ⟨"Alpha", "control_policies_ou_structure/ROOT/Alpha.scp", ["r-c7rt"],
          "SERVICE_CONTROL_POLICY"⟩] :
        List resolve_control_policy_data.ManifestEntry).filter
      (fun e => e.cp_type == "SERVICE_CONTROL_POLICY")).map
        (fun e => e.cp_name)).Nodup ∧
    ((([⟨"Zeta", "control_policies_ou_structure/ROOT/Zeta.scp", ["r-c7rt"],
          "SERVICE_CONTROL_POLICY"⟩,
        ⟨"Alpha", "control_policies_ou_structure/ROOT/Alpha.scp", ["r-c7rt"],
          "SERVICE_CONTROL_POLICY"⟩] :
        List resolve_control_policy_data.ManifestEntry).filter
      (fun e => e.cp_type == "RESOURCE_CONTROL_POLICY")).map
        (fun e => e.cp_name)).Nodup :=
  ⟨rfl,
   (c7_amended c7Client c7Fs 2 _ rfl).1,
   (c7_amended c7Client c7Fs 2 _ rfl).2⟩

/-- One-step unfolding of the SCP-script walker at positive fuel. -/
theorem gpa_rsd_succ (client : OrgClient) (fs : FS) (ptype : String) (f : Nat)
    (id path : String) (d : DataDict) :
    resolve_scp_data.get_policy_attachments client fs ptype (f + 1) id path d =
      match shortNameOf ptype with
      | none => (.error (.unsupportedPolicy ptype), [])
      | some short =>
        match verify_attachment_counts fs path ptype with
        | .error e => (.error e, [])
        | .ok _ =>
          resolve_scp_data.walkChildTypes client id path
            (fun cid cpath dd => resolve_scp_data.get_policy_attachments
              client fs ptype f cid cpath dd)
            ["ORGANIZATIONAL_UNIT", "ACCOUNT"]
            (resolve_scp_data.processShared short id
              (globNames ((fsList fs path).getD []) ("." ++ short ++ ".shared"))
              (resolve_scp_data.processDirect short path id
                (globNames ((fsList fs path).getD []) ("." ++ short)) d)) := rfl

/-- A successful `fsList` lookup is a membership in the mirror. -/
theorem fsList_mem (fs : FS) (p : String) (items : List DirEntry)
    (h : fsList fs p = some items) : (p, items) ∈ fs := by
  induction fs with
  | nil => simp [fsList] at h
  | cons pr rest ih =>
    obtain ⟨q, l⟩ := pr
    by_cases hq : q = p
    · subst hq
      simp only [fsList, eq_self_iff_true, if_true, Option.some.injEq] at h
      subst h
      exact List.mem_cons_self _ _
    · simp only [fsList, if_neg hq] at h
      exact List.mem_cons_of_mem _ (ih h)

/-- Accessor for the `plainFs` side condition. -/
theorem plainFs_entry (fs : FS) (hplain : plainFs fs) (p : String)
    (items : List DirEntry) (hfs : fsList fs p = some items) (e : DirEntry)
    (he : e ∈ items) :
    hasSpace e.name = false ∧ strEndsWith e.name ".scp.shared" = false ∧
      strEndsWith e.name ".rcp.shared" = false :=
  hplain (p, items) (fsList_mem fs p items hfs) e he

/-- Names returned by the glob come from the listing. -/
theorem mem_globNames (listing : List DirEntry) (suf nm : String)
    (h : nm ∈ globNames listing suf) : ∃ e ∈ listing, e.name = nm := by
  simp only [globNames, List.mem_map, List.mem_filter] at h
  obtain ⟨e, ⟨he, _⟩, rfl⟩ := h
  exact ⟨e, he, rfl⟩

/-- The short-name dispatch only ever returns `rcp` or `scp`. -/
theorem shortNameOf_eq (t short : String) (h : shortNameOf t = some short) :
    short = "rcp" ∨ short = "scp" := by
  unfold shortNameOf at h
  split at h
  · simp only [Option.some.injEq] at h
    exact Or.inl h.symm
  · split at h
    · simp only [Option.some.injEq] at h
      exact Or.inr h.symm
    · simp at h

/-- Under the `plainFs` side condition the shared-marker glob is empty. -/
theorem globNames_shared_nil (fs : FS) (hplain : plainFs fs) (p short : String)
    (hshort : short = "rcp" ∨ short = "scp") :
    globNames ((fsList fs p).getD []) ("." ++ short ++ ".shared") = [] := by
  cases hfs : fsList fs p with
  | none => rfl
  | some items =>
    simp only [Option.getD_some]
    simp only [globNames, List.map_eq_nil_iff, List.filter_eq_nil_iff]
    intro e he
    obtain ⟨_, h2, h3⟩ := plainFs_entry fs hplain p items hfs e he
    rcases hshort with rfl | rfl
    · have hs : ("." ++ "rcp" ++ ".shared" : String) = ".rcp.shared" := rfl
      simp [hs, h3]
    · have hs : ("." ++ "scp" ++ ".shared" : String) = ".scp.shared" := rfl
      simp [hs, h2]

/-- Under the `plainFs` side condition no glob match contains a space. -/
theorem globNames_nospace (fs : FS) (hplain : plainFs fs) (p suf nm : String)
    (h : nm ∈ globNames ((fsList fs p).getD []) suf) : hasSpace nm = false := by
  cases hfs : fsList fs p with
  | none =>
    rw [hfs] at h
    simp [globNames] at h
  | some items =>
    rw [hfs] at h
    simp only [Option.getD_some] at h
    obtain ⟨e, he, rfl⟩ := mem_globNames items suf nm h
    exact (plainFs_entry fs hplain p items hfs e he).1

/-- When no direct name contains a space, the two scripts' direct-file
loops agree (the control script's space check never fires). -/
theorem processDirect_eq_of_nospace (short p id : String) :
    ∀ (names : List String) (d : DataDict),
      (∀ nm ∈ names, hasSpace (pyReplace nm ("." ++ short) "") = false) →
      resolve_control_policy_data.processDirect short p id names d =
        .ok (resolve_scp_data.processDirect short p id names d) := by
  intro names
  induction names with
  | nil => intro d _; rfl
  | cons nm rest ih =>
    intro d hns
    have h0 : hasSpace (pyReplace nm ("." ++ short) "") = false :=
      hns nm (List.mem_cons_self _ _)
    simp only [resolve_control_policy_data.processDirect,
      resolve_scp_data.processDirect, h0, Bool.false_eq_true, if_false]
    exact ih _ (fun x hx => hns x (List.mem_cons_of_mem _ hx))

/-- The two scripts' per-child loops produce matching results (same dict
or same error kind, same traces) whenever the recursive calls do; the only
difference between them is the text of the re-raised missing-mirror
message. -/
theorem walkKids_match (client : OrgClient) (ct cpath : String)
    (recC recS : String → String → DataDict → Except PErr DataDict × Trace)
    (hrec : ∀ cid cp dd, resMatch (recC cid cp dd) (recS cid cp dd)) :
    ∀ (kids : List String) (d : DataDict),
      resMatch (resolve_control_policy_data.walkKids client ct cpath recC kids d)
        (resolve_scp_data.walkKids client ct cpath recS kids d) := by
  intro kids
  induction kids with
  | nil => intro d; exact ⟨rfl, rfl⟩
  | cons cid rest ih =>
    intro d
    simp only [resolve_control_policy_data.walkKids, resolve_scp_data.walkKids]
    have hsuffix : resolve_scp_data.ACCOUNT_SUFFIX =
        resolve_control_policy_data.ACCOUNT_SUFFIX := rfl
    rw [hsuffix]
    obtain ⟨h1, h2⟩ := hrec cid
      (cpath ++ "/" ++ (if ct = "ORGANIZATIONAL_UNIT" then client.describe_ou_name cid
        else client.describe_account_name cid ++
          resolve_control_policy_data.ACCOUNT_SUFFIX)) d
    cases hc : (recC cid
      (cpath ++ "/" ++ (if ct = "ORGANIZATIONAL_UNIT" then client.describe_ou_name cid
        else client.describe_account_name cid ++
          resolve_control_policy_data.ACCOUNT_SUFFIX)) d).1 with
    | error eC =>
      cases hs : (recS cid
        (cpath ++ "/" ++ (if ct = "ORGANIZATIONAL_UNIT" then client.describe_ou_name cid
          else client.describe_account_name cid ++
            resolve_control_policy_data.ACCOUNT_SUFFIX)) d).1 with
      | error eS =>
        rw [hc, hs] at h1
        cases eC <;> cases eS <;> refine ⟨?_, h2⟩ <;> simp [kindOf] at h1 ⊢
      | ok dS =>
        rw [hc, hs] at h1
        exact h1.elim
    | ok dC =>
      cases hs : (recS cid
        (cpath ++ "/" ++ (if ct = "ORGANIZATIONAL_UNIT" then client.describe_ou_name cid
          else client.describe_account_name cid ++
            resolve_control_policy_data.ACCOUNT_SUFFIX)) d).1 with
      | error eS =>
        rw [hc, hs] at h1
        exact h1.elim
      | ok dS =>
        rw [hc, hs] at h1
        subst h1
        obtain ⟨hi1, hi2⟩ := ih dC
        exact ⟨hi1, by simp only [h2, hi2]⟩

/-- The two scripts' child-type loops produce matching results whenever
the recursive calls do (the pagination crash is identical in both). -/
theorem walkChildTypes_match (client : OrgClient) (id path : String)
    (recC recS : String → String → DataDict → Except PErr DataDict × Trace)
    (hrec : ∀ cid cp dd, resMatch (recC cid cp dd) (recS cid cp dd)) :
    ∀ (cts : List String) (d : DataDict),
      resMatch (resolve_control_policy_data.walkChildTypes client id path recC cts d)
        (resolve_scp_data.walkChildTypes client id path recS cts d) := by
  intro cts
  induction cts with
  | nil => intro d; exact ⟨rfl, rfl⟩
  | cons ct rest ih =>
    intro d
    simp only [resolve_control_policy_data.walkChildTypes,
      resolve_scp_data.walkChildTypes]
    cases hmid : matches12 id with
    | true =>
      simp only [hmid, if_true]
      exact ih d
    | false =>
      simp only [hmid, Bool.false_eq_true, if_false]
      cases htok : (client.list_children id ct none).nextToken.isSome with
      | true =>
        simp only [htok, if_true]
        exact ⟨rfl, rfl⟩
      | false =>
        simp only [htok, Bool.false_eq_true, if_false]
        obtain ⟨hk1, hk2⟩ := walkKids_match client ct path recC recS hrec
          (client.list_children id ct none).children d
        cases hc : (resolve_control_policy_data.walkKids client ct path recC
          (client.list_children id ct none).children d).1 with
        | error eC =>
          cases hs : (resolve_scp_data.walkKids client ct path recS
            (client.list_children id ct none).children d).1 with
          | error eS =>
            rw [hc, hs] at hk1
            exact ⟨hk1, by simp only [hk2]⟩
          | ok dS =>
            rw [hc, hs] at hk1
            exact hk1.elim
        | ok dC =>
          cases hs : (resolve_scp_data.walkKids client ct path recS
            (client.list_children id ct none).children d).1 with
          | error eS =>
            rw [hc, hs] at hk1
            exact hk1.elim
          | ok dS =>
            rw [hc, hs] at hk1
            subst hk1
            obtain ⟨hi1, hi2⟩ := ih dC
            exact ⟨hi1, by simp only [hk2, hi2]⟩

/-- C9 (amended): on mirror trees whose file names contain no spaces and
no shared-reference markers, the two resolve scripts are equivalent: same
resulting mapping on success, failures of the same kind (the error texts
differ), and the same call trace.  (`c9_counterexample` shows they diverge
once a shared marker is present, and the space check only exists in the
control-policy script.) -/
theorem c9_amended (client : OrgClient) (fs : FS) (policy_type : String)
    (hplain : plainFs fs) :
    ∀ (fuel : Nat) (id path : String) (d : DataDict),
      resMatch
        (resolve_control_policy_data.get_policy_attachments client fs policy_type fuel
          id path d)
        (resolve_scp_data.get_policy_attachments client fs policy_type fuel id path d) := by
  intro fuel
  induction fuel with
  | zero => intro id path d; exact ⟨rfl, rfl⟩
  | succ f ih =>
    intro id path d
    rw [gpa_cpd_succ, gpa_rsd_succ]
    cases hsn : shortNameOf policy_type with
    | none =>
      simp only [hsn]
      exact ⟨rfl, rfl⟩
    | some short =>
      simp only [hsn]
      cases hv : verify_attachment_counts fs path policy_type with
      | error e =>
        simp only [hv]
        exact ⟨rfl, rfl⟩
      | ok u =>
        simp only [hv]
        have hdir : resolve_control_policy_data.processDirect short path id
            (globNames ((fsList fs path).getD []) ("." ++ short)) d =
            .ok (resolve_scp_data.processDirect short path id
              (globNames ((fsList fs path).getD []) ("." ++ short)) d) := by
          apply processDirect_eq_of_nospace
          intro nm hnm
          exact hasSpace_pyReplace nm ("." ++ short)
            (globNames_nospace fs hplain path ("." ++ short) nm hnm)
        rw [hdir]
        rw [globNames_shared_nil fs hplain path short
          (shortNameOf_eq policy_type short hsn)]
        simp only [resolve_control_policy_data.processShared,
          resolve_scp_data.processShared]
        exact walkChildTypes_match client id path _ _
          (fun cid cp dd => ih cid cp dd) _ _

/-- C9 witness: on a plain mirror (one ordinary direct file, no shared
markers, no spaces) the two scripts give matching results. -/
theorem c9_amended_witness :
    plainFs c9wFs ∧
    resMatch
      (resolve_control_policy_data.get_policy_attachments baseClient c9wFs
        "SERVICE_CONTROL_POLICY" 2 "r-c9w" "control_policies_ou_structure/ROOT" [])
      (resolve_scp_data.get_policy_attachments baseClient c9wFs
        "SERVICE_CONTROL_POLICY" 2 "r-c9w" "control_policies_ou_structure/ROOT" []) :=
  ⟨by unfold plainFs; decide,
   c9_amended baseClient c9wFs "SERVICE_CONTROL_POLICY" (by unfold plainFs; decide) 2
     "r-c9w" "control_policies_ou_structure/ROOT" []⟩

/-- Evaluation of the walker at a leaf node of the C1 scenario (no
children of either type): the result is the local direct+shared processing
of the node's folder, and the two listing calls. -/
theorem c1_node (n : String) (g : Nat) (id path : String) (d d1 : DataDict)
    (hmid : matches12 id = false)
    (hou : c1Client.list_children id "ORGANIZATIONAL_UNIT" none = ⟨[], none⟩)
    (hacc : c1Client.list_children id "ACCOUNT" none = ⟨[], none⟩)
    (hver : verify_attachment_counts (c1Fs n) path "SERVICE_CONTROL_POLICY" = .ok ())
    (hdir : resolve_control_policy_data.processDirect "scp" path id
      (globNames ((fsList (c1Fs n) path).getD []) ("." ++ "scp")) d = .ok d1) :
    resolve_control_policy_data.get_policy_attachments c1Client (c1Fs n)
      "SERVICE_CONTROL_POLICY" (g + 1) id path d =
      (.ok (resolve_control_policy_data.processShared "scp" id
        (globNames ((fsList (c1Fs n) path).getD []) ("." ++ "scp" ++ ".shared")) d1),
       [(id, "ORGANIZATIONAL_UNIT"), (id, "ACCOUNT")]) := by
  rw [gpa_cpd_succ]
  have hshort : shortNameOf "SERVICE_CONTROL_POLICY" = some "scp" := rfl
  simp only [hshort, hver, hdir]
  simp only [resolve_control_policy_data.walkChildTypes, hmid, Bool.false_eq_true,
    if_false, hou, hacc, Option.isSome_none, resolve_control_policy_data.walkKids]
  rfl

/-- C1 (amended): in every instance of the example tree - policy `n`
(no spaces, not dot-initial, not containing the extensions) attached
directly at `ou-A` and via shared markers at `ou-B` and `ou-C`, visited in
that traversal order - the resolve pass produces exactly one registry
entry for `n`, whose canonical path is `ou-A`'s direct-content location
(not the shared-pool location), and whose targets are
`[ou-A, ou-B, ou-C]` in traversal order. -/
theorem c1_amended (n : String) (f : Nat)
    (hne : n.data ≠ [])
    (hdot : strStartsWith n "." = false)
    (hsp : hasSpace n = false)
    (hclean1 : cleanForStrip (String.data ".scp") n.data = true)
    (hclean2 : cleanForStrip (String.data ".scp.shared") n.data = true) :
    (resolve_control_policy_data.get_policy_attachments c1Client (c1Fs n)
      "SERVICE_CONTROL_POLICY" (f + 2) "r-c1rt" "control_policies_ou_structure/ROOT"
      []).1 =
      .ok [(n, ⟨("control_policies_ou_structure/ROOT" ++ "/" ++ "ouA") ++ "/" ++ n ++
        "." ++ "scp", ["ou-A", "ou-B", "ou-C"]⟩)] := by
  have hshort : shortNameOf "SERVICE_CONTROL_POLICY" = some "scp" := rfl
  have hds : ("." ++ "scp" : String) = ".scp" := rfl
  have hss : ("." ++ "scp" ++ ".shared" : String) = ".scp.shared" := rfl
  have hfsA : fsList (c1Fs n) ("control_policies_ou_structure/ROOT" ++ "/" ++ "ouA") =
      some [⟨n ++ ".scp", true⟩] := rfl
  have hfsB : fsList (c1Fs n) ("control_policies_ou_structure/ROOT" ++ "/" ++ "ouB") =
      some [⟨n ++ ".scp.shared", true⟩] := rfl
  have hfsC : fsList (c1Fs n) ("control_policies_ou_structure/ROOT" ++ "/" ++ "ouC") =
      some [⟨n ++ ".scp.shared", true⟩] := rfl
  have hendA : endsRootOrAccount ("control_policies_ou_structure/ROOT" ++ "/" ++ "ouA") =
      false := by decide
  have hendB : endsRootOrAccount ("control_policies_ou_structure/ROOT" ++ "/" ++ "ouB") =
      false := by decide
  have hendC : endsRootOrAccount ("control_policies_ou_structure/ROOT" ++ "/" ++ "ouC") =
      false := by decide
  -- node A: verification, direct file, no shared markers
  have hverA : verify_attachment_counts (c1Fs n)
      ("control_policies_ou_structure/ROOT" ++ "/" ++ "ouA") "SERVICE_CONTROL_POLICY" =
      .ok () := by
    simp only [verify_attachment_counts, hshort, hfsA]
    simp [verifyLoop, attachRegexMatch_direct, hendA, MAX_CUSTOM_POLICY_ATTACHMENTS]
  have hdirA : resolve_control_policy_data.processDirect "scp"
      ("control_policies_ou_structure/ROOT" ++ "/" ++ "ouA") "ou-A"
      (globNames ((fsList (c1Fs n)
        ("control_policies_ou_structure/ROOT" ++ "/" ++ "ouA")).getD []) ("." ++ "scp"))
      [] =
      .ok [(n, ⟨("control_policies_ou_structure/ROOT" ++ "/" ++ "ouA") ++ "/" ++ n ++
        "." ++ "scp", ["ou-A"]⟩)] := by
    rw [hfsA]
    simp only [Option.getD_some, hds, globNames_direct_single n hne hdot]
    simp only [resolve_control_policy_data.processDirect, hds,
      pyReplace_strip n ".scp" (by decide) hclean1, hsp, Bool.false_eq_true, if_false]
    rfl
  have hA : resolve_control_policy_data.get_policy_attachments c1Client (c1Fs n)
      "SERVICE_CONTROL_POLICY" (f + 1) "ou-A"
      ("control_policies_ou_structure/ROOT" ++ "/" ++ "ouA") [] =
      (.ok [(n, ⟨("control_policies_ou_structure/ROOT" ++ "/" ++ "ouA") ++ "/" ++ n ++
        "." ++ "scp", ["ou-A"]⟩)],
       [("ou-A", "ORGANIZATIONAL_UNIT"), ("ou-A", "ACCOUNT")]) := by
    rw [c1_node n f "ou-A" _ _ _ (by decide) (by decide) (by decide) hverA hdirA]
    rw [hfsA]
    simp only [Option.getD_some, hss, globNames_shared_of_direct n]
    rfl
  -- node B: shared marker, entry exists, append ou-B
  have hverB : verify_attachment_counts (c1Fs n)
      ("control_policies_ou_structure/ROOT" ++ "/" ++ "ouB") "SERVICE_CONTROL_POLICY" =
      .ok () := by
    simp only [verify_attachment_counts, hshort, hfsB]
    simp [verifyLoop, attachRegexMatch_shared, hendB, MAX_CUSTOM_POLICY_ATTACHMENTS]
  have hdirB : resolve_control_policy_data.processDirect "scp"
      ("control_policies_ou_structure/ROOT" ++ "/" ++ "ouB") "ou-B"
      (globNames ((fsList (c1Fs n)
        ("control_policies_ou_structure/ROOT" ++ "/" ++ "ouB")).getD []) ("." ++ "scp"))
      [(n, ⟨("control_policies_ou_structure/ROOT" ++ "/" ++ "ouA") ++ "/" ++ n ++
        "." ++ "scp", ["ou-A"]⟩)] =
      .ok [(n, ⟨("control_policies_ou_structure/ROOT" ++ "/" ++ "ouA") ++ "/" ++ n ++
        "." ++ "scp", ["ou-A"]⟩)] := by
    rw [hfsB]
    simp only [Option.getD_some, hds, globNames_direct_of_shared n]
    rfl
  have hshB : resolve_control_policy_data.processShared "scp" "ou-B"
      (globNames ((fsList (c1Fs n)
        ("control_policies_ou_structure/ROOT" ++ "/" ++ "ouB")).getD [])
        ("." ++ "scp" ++ ".shared"))
      [(n, ⟨("control_policies_ou_structure/ROOT" ++ "/" ++ "ouA") ++ "/" ++ n ++
        "." ++ "scp", ["ou-A"]⟩)] =
      [(n, ⟨("control_policies_ou_structure/ROOT" ++ "/" ++ "ouA") ++ "/" ++ n ++
        "." ++ "scp", ["ou-A", "ou-B"]⟩)] := by
    rw [hfsB]
    simp only [Option.getD_some, hss, globNames_shared_single n hne hdot]
    simp only [resolve_control_policy_data.processShared,
      resolve_control_policy_data.processSharedOne, hss,
      pyReplace_strip n ".scp.shared" (by decide) hclean2]
    simp [dictGet, dictSet]
  have hB : resolve_control_policy_data.get_policy_attachments c1Client (c1Fs n)
      "SERVICE_CONTROL_POLICY" (f + 1) "ou-B"
      ("control_policies_ou_structure/ROOT" ++ "/" ++ "ouB")
      [(n, ⟨("control_policies_ou_structure/ROOT" ++ "/" ++ "ouA") ++ "/" ++ n ++
        "." ++ "scp", ["ou-A"]⟩)] =
      (.ok [(n, ⟨("control_policies_ou_structure/ROOT" ++ "/" ++ "ouA") ++ "/" ++ n ++
        "." ++ "scp", ["ou-A", "ou-B"]⟩)],
       [("ou-B", "ORGANIZATIONAL_UNIT"), ("ou-B", "ACCOUNT")]) := by
    rw [c1_node n f "ou-B" _ _ _ (by decide) (by decide) (by decide) hverB hdirB]
    rw [hshB]
  -- node C: shared marker, entry exists, append ou-C
  have hverC : verify_attachment_counts (c1Fs n)
      ("control_policies_ou_structure/ROOT" ++ "/" ++ "ouC") "SERVICE_CONTROL_POLICY" =
      .ok () := by
    simp only [verify_attachment_counts, hshort, hfsC]
    simp [verifyLoop, attachRegexMatch_shared, hendC, MAX_CUSTOM_POLICY_ATTACHMENTS]
  have hdirC : resolve_control_policy_data.processDirect "scp"
      ("control_policies_ou_structure/ROOT" ++ "/" ++ "ouC") "ou-C"
      (globNames ((fsList (c1Fs n)
        ("control_policies_ou_structure/ROOT" ++ "/" ++ "ouC")).getD []) ("." ++ "scp"))
      [(n, ⟨("control_policies_ou_structure/ROOT" ++ "/" ++ "ouA") ++ "/" ++ n ++
        "." ++ "scp", ["ou-A", "ou-B"]⟩)] =
      .ok [(n, ⟨("control_policies_ou_structure/ROOT" ++ "/" ++ "ouA") ++ "/" ++ n ++
        "." ++ "scp", ["ou-A", "ou-B"]⟩)] := by
    rw [hfsC]
    simp only [Option.getD_some, hds, globNames_direct_of_shared n]
    rfl
  have hshC : resolve_control_policy_data.processShared "scp" "ou-C"
      (globNames ((fsList (c1Fs n)
        ("control_policies_ou_structure/ROOT" ++ "/" ++ "ouC")).getD [])
        ("." ++ "scp" ++ ".shared"))
      [(n, ⟨("control_policies_ou_structure/ROOT" ++ "/" ++ "ouA") ++ "/" ++ n ++
        "." ++ "scp", ["ou-A", "ou-B"]⟩)] =
      [(n, ⟨("control_policies_ou_structure/ROOT" ++ "/" ++ "ouA") ++ "/" ++ n ++
        "." ++ "scp", ["ou-A", "ou-B", "ou-C"]⟩)] := by
    rw [hfsC]
    simp only [Option.getD_some, hss, globNames_shared_single n hne hdot]
    simp only [resolve_control_policy_data.processShared,
      resolve_control_policy_data.processSharedOne, hss,
      pyReplace_strip n ".scp.shared" (by decide) hclean2]
    simp [dictGet, dictSet]
  have hC : resolve_control_policy_data.get_policy_attachments c1Client (c1Fs n)
      "SERVICE_CONTROL_POLICY" (f + 1) "ou-C"
      ("control_policies_ou_structure/ROOT" ++ "/" ++ "ouC")
      [(n, ⟨("control_policies_ou_structure/ROOT" ++ "/" ++ "ouA") ++ "/" ++ n ++
        "." ++ "scp", ["ou-A", "ou-B"]⟩)] =
      (.ok [(n, ⟨("control_policies_ou_structure/ROOT" ++ "/" ++ "ouA") ++ "/" ++ n ++
        "." ++ "scp", ["ou-A", "ou-B", "ou-C"]⟩)],
       [("ou-C", "ORGANIZATIONAL_UNIT"), ("ou-C", "ACCOUNT")]) := by
    rw [c1_node n f "ou-C" _ _ _ (by decide) (by decide) (by decide) hverC hdirC]
    rw [hshC]
  -- root assembly
  rw [show f + 2 = (f + 1) + 1 from rfl, gpa_cpd_succ]
  have hfsR : fsList (c1Fs n) "control_policies_ou_structure/ROOT" = some [] := rfl
  have hverR : verify_attachment_counts (c1Fs n) "control_policies_ou_structure/ROOT"
      "SERVICE_CONTROL_POLICY" = .ok () := rfl
  simp only [hshort, hverR, hfsR, Option.getD_some]
  simp only [globNames, List.filter_nil, List.map_nil,
    resolve_control_policy_data.processDirect, resolve_control_policy_data.processShared]
  have hmidR : matches12 "r-c1rt" = false := by decide
  have houR : c1Client.list_children "r-c1rt" "ORGANIZATIONAL_UNIT" none =
      ⟨["ou-A", "ou-B", "ou-C"], none⟩ := rfl
  have haccR : c1Client.list_children "r-c1rt" "ACCOUNT" none = ⟨[], none⟩ := rfl
  have hnmA : c1Client.describe_ou_name "ou-A" = "ouA" := rfl
  have hnmB : c1Client.describe_ou_name "ou-B" = "ouB" := rfl
  have hnmC : c1Client.describe_ou_name "ou-C" = "ouC" := rfl
  simp only [resolve_control_policy_data.walkChildTypes, hmidR, Bool.false_eq_true,
    if_false, houR, haccR, Option.isSome_none,
    resolve_control_policy_data.walkKids, hnmA, hnmB, hnmC, eq_self_iff_true, if_true,
    hA, hB, hC]

/-- C1 witness: the spec's own example name `Deny-Root-User` satisfies the
side conditions, and the walk produces the single direct-location entry
with targets in traversal order. -/
theorem c1_amended_witness :
    ("Deny-Root-User" : String).data ≠ [] ∧
    strStartsWith "Deny-Root-User" "." = false ∧
    hasSpace "Deny-Root-User" = false ∧
    cleanForStrip (String.data ".scp") ("Deny-Root-User" : String).data = true ∧
    cleanForStrip (String.data ".scp.shared") ("Deny-Root-User" : String).data = true ∧
    (resolve_control_policy_data.get_policy_attachments c1Client
      (c1Fs "Deny-Root-User") "SERVICE_CONTROL_POLICY" (1 + 2) "r-c1rt"
      "control_policies_ou_structure/ROOT" []).1 =
      .ok [("Deny-Root-User",
        ⟨("control_policies_ou_structure/ROOT" ++ "/" ++ "ouA") ++ "/" ++
          "Deny-Root-User" ++ "." ++ "scp", ["ou-A", "ou-B", "ou-C"]⟩)] :=
  ⟨by decide, by decide, by decide, by decide, by decide,
   c1_amended "Deny-Root-User" 1 (by decide) (by decide) (by decide) (by decide)
     (by decide)⟩
